import Mathlib

/-!
# iperfnetstack: a shallow embedding of `link.go` and `iperf.go`

The development has two parts.

* `link.go`: the `dropLink` link endpoint, which drops every 800th outgoing
  packet and writes a packet twice when `isRetransmit` says so.
* `iperf.go`: the iperf3 client: the control-message decoder, the framing of
  the parameter document, the stream worker and the `run` state machine.

Conventions of the embedding.

* A byte is a `Fin 256`; a Go `int` is an `Int` wrapped to 64 bits two's
  complement (`wrapInt`); a `uint16`, `uint32` and `uint64` are naturals
  reduced modulo `2^16`, `2^32` and `2^64`; an `int8` is an `Int` obtained
  from a byte by `toInt8`.
* A Go run-time panic (index or slice bound out of range) is the value `none`
  of an `Option`.
* Calls into the network stack are answered by scripts: the list of the
  outcomes the endpoint gives to the successive calls.  A script that is used
  up stands for an endpoint that answers "would block" and never signals
  readiness again, so a caller that waits for readiness is blocked for good.
* Effects (calls to the lower link endpoint, connects, writes, started
  goroutines, log lines of the control decoder, channel traffic) are recorded
  in program order.
-/

namespace Iperfnetstack

set_option linter.unusedVariables false
set_option maxRecDepth 100000

/-! ## Common types -/

/-- One octet. -/
abbrev Byte := Fin 256

/-- A Go `error` value (`nil` is `none` of an `Option GoError`).  The code
compares errors with the sentinels of the netstack library and of `io` by
identity; every other error is identified by its message. -/
inductive GoError where
  | ErrWouldBlock
  | ErrClosedForSend
  | ErrClosedForReceive
  | ErrConnectStarted
  | EOF
  | other (text : String)
deriving DecidableEq, Repr

/-- Go `int` on a 64-bit target: the two's-complement wrap of an integer into
`[-2^63, 2^63)`. -/
def wrapInt (x : Int) : Int := (x + 2 ^ 63) % 2 ^ 64 - 2 ^ 63

/-! ## `link.go` -/

/-- Modelled from the spec: the constant `header.IPv4ProtocolNumber` of the
external netstack library is not under `src/`; it is the EtherType of IPv4,
the one network protocol that spec 4.5 calls supported. -/
def IPv4ProtocolNumber : Nat := 0x0800

/-- Modelled from the spec: the constant `header.TCPProtocolNumber` of the
external netstack library is not under `src/`; it is the IP protocol number of
TCP, the transport whose flag bits spec 4.5 has inspected. -/
def TCPProtocolNumber : Nat := 6

/-- Modelled from the spec: the accessor `header.IPv4.Protocol` of the external
netstack library is not under `src/`; spec 4.5 says the header is parsed to
reach the transport-layer flag bits.  The accessor is `b[9]`, the protocol
octet of the IPv4 wire format; an index out of range panics (`none`). -/
def IPv4.Protocol (b : List Byte) : Option Nat :=
  match b[9]? with
  | none => none
  | some x => some x.val

/-- Modelled from the spec: the accessor `header.IPv4.HeaderLength` of the
external netstack library, `(b[0] & 0xf) * 4` as a `uint8`; an index out of
range panics (`none`). -/
def IPv4.HeaderLength (b : List Byte) : Option Nat :=
  match b[0]? with
  | none => none
  | some x => some (((x.val &&& 0xf) * 4) % 256)

/-- Modelled from the spec: the accessor `header.TCP.Flags` of the external
netstack library, `b[13]`, the flags octet of the TCP wire format; an index out
of range panics (`none`). -/
def TCP.Flags (b : List Byte) : Option Nat :=
  match b[13]? with
  | none => none
  | some x => some x.val

/-- The Go slice expression `b[low:]`: it panics (`none`) when `low` exceeds
the length of `b`. -/
def sliceFrom (b : List Byte) (low : Nat) : Option (List Byte) :=
  if low ≤ b.length then some (b.drop low) else none

/-- `isRetransmit` of `link.go`.  The result is `none` when the Go code panics
on an index or slice bound, `some r` when it returns `r`.  The log lines are
not modelled. -/
def isRetransmit (protocol : Nat) (b plb : List Byte) : Option Bool :=
  if protocol = IPv4ProtocolNumber then
    match IPv4.Protocol b with
    | none => none
    | some transProto =>
      match IPv4.HeaderLength b with
      | none => none
      | some hl =>
        match sliceFrom b hl with
        | none => none
        | some b1 =>
          if transProto = TCPProtocolNumber then
            match TCP.Flags b1 with
            | none => none
            | some flags =>
              if flags &&& (1 <<< 3) ≠ 0 then some true else some false
          else some false
  else some false

/-- The arguments of one `WritePacket` call: the route (by identity), the used
bytes of the header, the payload and the network protocol number. -/
structure Packet where
  route : Nat
  hdr : List Byte
  payload : List Byte
  protocol : Nat
deriving DecidableEq, Repr

/-- Modelled from the spec: the lower link endpoint (`stack.LinkEndpoint`) is
an external collaborator, not under `src/` (spec 6, Link Endpoint,
`sendOutbound`).  `resp i` is the error returned by its `i`-th `WritePacket`
call (counted from 0) and `calls` are the calls it has received, oldest
first. -/
structure LinkEndpoint where
  resp : Nat → Option GoError
  calls : List Packet

/-- One `WritePacket` call on the lower endpoint: the call is recorded and the
scripted error returned. -/
def LinkEndpoint.WritePacket (l : LinkEndpoint) (p : Packet) :
    Option GoError × LinkEndpoint :=
  (l.resp l.calls.length, { l with calls := l.calls ++ [p] })

/-- The struct `dropLink` of `link.go` (the dispatcher plays no part in the
outbound path and is left out). -/
structure dropLink where
  count : Int
  count2 : Int
  lower : LinkEndpoint

/-- `newDrop`: a fresh `dropLink` over the lower endpoint, counters zero. -/
def newDrop (lower : LinkEndpoint) : dropLink :=
  { count := 0, count2 := 0, lower := lower }

/-- How a `WritePacket` call ends: it returns an error value (`none` is `nil`)
or it panics. -/
inductive WriteResult where
  | returned (err : Option GoError)
  | panicked
deriving DecidableEq, Repr

/-- `dropLink.WritePacket` of `link.go`. -/
def dropLink.WritePacket (e : dropLink) (p : Packet) : WriteResult × dropLink :=
  let e1 := { e with count := wrapInt (e.count + 1) }
  if Int.tmod e1.count 800 = 0 then
    (WriteResult.returned none, e1)
  else
    let r1 := e1.lower.WritePacket p
    let e2 := { e1 with lower := r1.2 }
    match isRetransmit p.protocol p.hdr p.payload with
    | none => (WriteResult.panicked, e2)
    | some true =>
      let r2 := e2.lower.WritePacket p
      (WriteResult.returned r2.1, { e2 with lower := r2.2 })
    | some false => (WriteResult.returned r1.1, e2)

/-- A sequence of `WritePacket` calls, one after the other on the same
`dropLink`; `none` when one of them panics (the process dies there). -/
def dropLink.sends : dropLink → List Packet → Option dropLink
  | e, [] => some e
  | e, p :: ps =>
    match e.WritePacket p with
    | (WriteResult.panicked, _) => none
    | (WriteResult.returned _, e1) => dropLink.sends e1 ps

/-- The call `e.WritePacket p` is dropped: it returns `nil` and the lower
endpoint receives no call. -/
def dropLink.dropped (e : dropLink) (p : Packet) : Prop :=
  (e.WritePacket p).1 = WriteResult.returned none ∧
    (e.WritePacket p).2.lower.calls = e.lower.calls

/-- The every-800th rule does not fire on the next call of `e`. -/
def dropLink.passes (e : dropLink) : Prop :=
  Int.tmod (wrapInt (e.count + 1)) 800 ≠ 0

instance (e : dropLink) : Decidable e.passes := by
  unfold dropLink.passes
  infer_instance

/-- A well-formed IPv4 header followed by a TCP header: version 4, a header
length field of at least 5 words, the protocol octet 6 and room for the IPv4
header and the 20 octets of a minimal TCP header. -/
def wellFormedIPv4TCP (b : List Byte) : Bool :=
  match b[0]?, b[9]? with
  | some v, some q =>
    decide (v.val / 16 = 4 ∧ 5 ≤ v.val % 16 ∧
      (v.val % 16) * 4 + 20 ≤ b.length ∧ q.val = TCPProtocolNumber)
  | _, _ => false

/-- The TCP flags octet of a header: octet 13 after the IPv4 header. -/
def tcpFlagsOctet (b : List Byte) : Option Nat :=
  match b[0]? with
  | none => none
  | some x =>
    match b[(x.val % 16) * 4 + 13]? with
    | none => none
    | some f => some f.val

/-- A lower endpoint whose every write succeeds. -/
def lowerOk : LinkEndpoint := { resp := fun _ => none, calls := [] }

/-- A lower endpoint whose first write fails and whose later writes succeed. -/
def lowerFailFirst : LinkEndpoint :=
  { resp := fun i => if i = 0 then some (GoError.other "link: send failed") else none, calls := [] }

/-- An ARP packet (network protocol 0x0806) with an empty header. -/
def pktArp : Packet := { route := 0, hdr := [], payload := [], protocol := 0x0806 }

/-- A 20-octet IPv4 header (protocol TCP) followed by a 20-octet TCP header
whose flags octet is `flags`. -/
def hdrTcp (flags : Byte) : List Byte :=
  [0x45, 0, 0, 40, 0, 0, 0, 0, 64, 6, 0, 0, 10, 0, 0, 1, 10, 0, 0, 2,
   0x14, 0x51, 0x14, 0x51, 0, 0, 0, 1, 0, 0, 0, 1, 0x50, flags, 0xff, 0xff, 0, 0, 0, 0]

/-- An IPv4 TCP segment with the flags ACK and PSH (0x18). -/
def pktPsh : Packet :=
  { route := 0, hdr := hdrTcp 0x18, payload := [], protocol := IPv4ProtocolNumber }

/-- An IPv4 TCP segment with the flag ACK only (0x10). -/
def pktAck : Packet :=
  { route := 0, hdr := hdrTcp 0x10, payload := [], protocol := IPv4ProtocolNumber }

/-- An IPv4 UDP datagram header (protocol octet 17), 20 octets. -/
def pktUdp : Packet :=
  { route := 0,
    hdr := [0x45, 0, 0, 28, 0, 0, 0, 0, 64, 17, 0, 0, 10, 0, 0, 1, 10, 0, 0, 2],
    payload := [], protocol := IPv4ProtocolNumber }

/-! ## `iperf.go` -/

/-- The type `state` of `iperf.go`, an `int8`. -/
abbrev state := Int

/-! The constants of type `state` of `iperf.go`. -/

abbrev TEST_START : state := 1
abbrev TEST_RUNNING : state := 2
abbrev RESULT_REQUEST : state := 3
abbrev TEST_END : state := 4
abbrev STREAM_BEGIN : state := 5
abbrev STREAM_RUNNING : state := 6
abbrev STREAM_END : state := 7
abbrev ALL_STREAMS_END : state := 8
abbrev PARAM_EXCHANGE : state := 9
abbrev CREATE_STREAMS : state := 10
abbrev SERVER_TERMINATE : state := 11
abbrev CLIENT_TERMINATE : state := 12
abbrev EXCHANGE_RESULTS : state := 13
abbrev DISPLAY_RESULTS : state := 14
abbrev IPERF_START : state := 15
abbrev IPERF_DONE : state := 16
abbrev ACCESS_DENIED : state := -1
abbrev SERVER_ERROR : state := -2

/-- The map `stateNames` of `iperf.go`. -/
def stateNames : List (state × String) :=
  [(TEST_START, "TEST_START"),
   (TEST_RUNNING, "TEST_RUNNING"),
   (RESULT_REQUEST, "RESULT_REQUEST"),
   (TEST_END, "TEST_END"),
   (STREAM_BEGIN, "STREAM_BEGIN"),
   (STREAM_RUNNING, "STREAM_RUNNING"),
   (STREAM_END, "STREAM_END"),
   (ALL_STREAMS_END, "ALL_STREAMS_END"),
   (PARAM_EXCHANGE, "PARAM_EXCHANGE"),
   (CREATE_STREAMS, "CREATE_STREAMS"),
   (SERVER_TERMINATE, "SERVER_TERMINATE"),
   (CLIENT_TERMINATE, "CLIENT_TERMINATE"),
   (EXCHANGE_RESULTS, "EXCHANGE_RESULTS"),
   (DISPLAY_RESULTS, "DISPLAY_RESULTS"),
   (IPERF_START, "IPERF_START"),
   (IPERF_DONE, "IPERF_DONE"),
   (ACCESS_DENIED, "ACCESS_DENIED"),
   (SERVER_ERROR, "SERVER_ERROR")]

/-- `state.String` of `iperf.go`: the name in `stateNames`, or
`state(unknown:%d)` when the map has none. -/
def state.String (s : state) : String :=
  let n := (stateNames.lookup s).getD ""
  if n = "" then "state(unknown:" ++ toString s ++ ")" else n

/-- The conversion `state(b)` of a byte to the `int8` type `state`: the bytes
128 to 255 become -128 to -1. -/
def toInt8 (b : Byte) : state :=
  if b.val < 128 then (b.val : Int) else (b.val : Int) - 256

/-- Modelled from the spec: the message of an error (`err.Error()`), as `%v`
prints it.  The sentinels belong to the external netstack library and to `io`,
not under `src/`; their texts name the conditions of spec 6 (would block,
closed for send, closed) as those libraries do. -/
def GoError.Error : GoError → String
  | GoError.ErrWouldBlock => "operation would block"
  | GoError.ErrClosedForSend => "endpoint is closed for send"
  | GoError.ErrClosedForReceive => "endpoint is closed for receive"
  | GoError.ErrConnectStarted => "connection attempt started"
  | GoError.EOF => "EOF"
  | GoError.other text => text

/-- The verb `%v` on an error value that may be `nil`. -/
def fmtErr : Option GoError → String
  | none => "<nil>"
  | some e => e.Error

/-- The bytes of an ASCII string. -/
def bytesOf (s : String) : List Byte :=
  s.toList.map (fun ch => (⟨ch.toNat % 256, Nat.mod_lt _ (by decide)⟩ : Byte))

/-- Modelled from the spec: `binary.BigEndian.PutUint32` of the Go library on
a 4-byte slice, applied to `uint32(n)`: the 4-byte big-endian length prefix of
spec 4.1. -/
def putUint32 (n : Nat) : List Byte :=
  let m := n % 2 ^ 32
  [⟨m / 2 ^ 24 % 256, Nat.mod_lt _ (by decide)⟩,
   ⟨m / 2 ^ 16 % 256, Nat.mod_lt _ (by decide)⟩,
   ⟨m / 2 ^ 8 % 256, Nat.mod_lt _ (by decide)⟩,
   ⟨m % 256, Nat.mod_lt _ (by decide)⟩]

/-- The struct `tcpip.FullAddress`; `Port` is a `uint16`. -/
structure FullAddress where
  NIC : Nat
  Addr : List Byte
  Port : Nat
deriving DecidableEq, Repr

/-- The outcome of one `Read` call on an endpoint: the view and the error. -/
structure ReadOutcome where
  v : List Byte
  err : Option GoError
deriving DecidableEq, Repr

/-- The outcome of one `Write` call on an endpoint: the byte count (a
`uintptr`) and the error. -/
structure WriteOutcome where
  n : Nat
  err : Option GoError
deriving DecidableEq, Repr

/-- Modelled from the spec: a `tcpip.Endpoint` is an external collaborator,
not under `src/` (spec 6, Socket Endpoint).  It is the script of its answers:
what `Connect` returns, whether the readiness notification awaited after
`ErrConnectStarted` arrives, what `GetSockOpt(ErrorOption)` returns, and the
outcomes of the successive `Write` and `Read` calls.  When a list is used up
the endpoint answers `ErrWouldBlock` and never signals readiness again. -/
structure Endpoint where
  connect : Option GoError
  notified : Bool
  sockErr : Option GoError
  writes : List WriteOutcome
  reads : List ReadOutcome
deriving DecidableEq, Repr

/-- One `Write` call on an endpoint. -/
def Endpoint.Write (ep : Endpoint) : (Nat × Option GoError) × Endpoint :=
  match ep.writes with
  | [] => ((0, some GoError.ErrWouldBlock), ep)
  | o :: rest => ((o.n, o.err), { ep with writes := rest })

/-- Modelled from the spec: a `tcpip.Stack` is an external collaborator, not
under `src/` (spec 1, the underlying network stack).  `newEndpoint i` is the
result of the `i`-th `NewEndpoint` call (counted from 0), `created` the number
of calls made so far. -/
structure Stack where
  newEndpoint : Nat → Except GoError Endpoint
  created : Nat

/-- One `NewEndpoint` call on the stack. -/
def Stack.NewEndpoint (s : Stack) : Except GoError Endpoint × Stack :=
  (s.newEndpoint s.created, { s with created := s.created + 1 })

/-- Which endpoint an effect concerns: the control connection, or the
connection of the stream opened by `connectStream num`. -/
inductive EpName where
  | control
  | stream (num : Int)
deriving DecidableEq, Repr

/-- The recorded effects of the client, in program order. -/
inductive Event where
  | newEndpoint (who : EpName)
  | connect (who : EpName) (addr : FullAddress)
  | write (who : EpName) (data : List Byte)
  | logControl (cmd : state)
  | goReader
  | goSend (index : Nat)
  | goReport
  | chanRecv (cmd : state)
deriving DecidableEq, Repr

/-- The struct `stream` of `iperf.go` (the waiter queue is left out). -/
structure stream where
  ep : Endpoint
deriving DecidableEq, Repr

/-- The struct `iperfClient` of `iperf.go` (the waiter queue is left out),
with the record `trace` of the effects so far. -/
structure iperfClient where
  s : Stack
  remote : FullAddress
  ep : Endpoint
  streams : List stream
  trace : List Event

/-- The result of a method of the client that may wait for readiness: it
returns a value, or it is blocked for good; either way with the client as it
then is. -/
inductive Res (α : Type) where
  | ret (a : α) (c : iperfClient)
  | blocked (c : iperfClient)

/-- The returned value, if the call returned. -/
def Res.val? {α : Type} : Res α → Option α
  | Res.ret a _ => some a
  | Res.blocked _ => none

/-- The client after the call. -/
def Res.client {α : Type} : Res α → iperfClient
  | Res.ret _ c => c
  | Res.blocked c => c

/-- What one stream worker has done when it stops: the byte counter, the
values it sent on the command channel, and whether it returned (`true`) or
waits for writability for good (`false`). -/
structure SendResult where
  sent : Nat
  cmds : List state
  finished : Bool
deriving DecidableEq, Repr

/-- The loop of `stream.send` over the outcomes of its successive `Write`
calls; `sent` is the shared `uint64` counter.  The 2048-byte chunk written
plays no part in the outcome. -/
def stream.sendLoop : List WriteOutcome → Nat → SendResult
  | [], sent => { sent := sent, cmds := [], finished := false }
  | o :: rest, sent =>
    if o.err = some GoError.ErrWouldBlock then
      stream.sendLoop rest sent
    else if o.err = some GoError.ErrClosedForSend then
      { sent := sent, cmds := [CLIENT_TERMINATE], finished := true }
    else if o.err ≠ none then
      { sent := sent, cmds := [CLIENT_TERMINATE], finished := true }
    else if o.n > 0 then
      stream.sendLoop rest ((sent + o.n % 2 ^ 64) % 2 ^ 64)
    else
      stream.sendLoop rest sent

/-- `stream.send` of `iperf.go`, run alone against the counter value `sent`. -/
def stream.send (s : stream) (sent : Nat) : SendResult :=
  stream.sendLoop s.ep.writes sent

/-- `iperfClient.sendJSON` of `iperf.go`; `data` is the result of
`json.Marshal` on the document. -/
def iperfClient.sendJSON (c : iperfClient) (data : Except GoError (List Byte)) :
    Option GoError × iperfClient :=
  match data with
  | Except.error err => (some (GoError.other ("iperf: send JSON: " ++ err.Error)), c)
  | Except.ok b =>
    let size := putUint32 b.length
    let w1 := c.ep.Write
    let c1 := { c with ep := w1.2, trace := c.trace ++ [Event.write EpName.control size] }
    match w1.1.2 with
    | some err => (some (GoError.other ("iperf: send JSON size: " ++ err.Error)), c1)
    | none =>
      let w2 := c1.ep.Write
      let c2 := { c1 with ep := w2.2, trace := c1.trace ++ [Event.write EpName.control b] }
      match w2.1.2 with
      | some err => (some (GoError.other ("iperf: send JSON: " ++ err.Error)), c2)
      | none => (none, c2)

/-- The loop of `iperfClient.read` over the outcomes of the successive `Read`
calls: the value returned and the outcomes left, or `none` when the loop waits
for readability for good. -/
def iperfClient.readLoop :
    List ReadOutcome → Option ((List Byte × Option GoError) × List ReadOutcome)
  | [] => none
  | o :: rest =>
    if o.err = some GoError.ErrClosedForReceive then
      some (([], some GoError.EOF), rest)
    else if o.err = some GoError.ErrWouldBlock then
      iperfClient.readLoop rest
    else
      some ((o.v, o.err), rest)

/-- `iperfClient.read` of `iperf.go`. -/
def iperfClient.read (c : iperfClient) : Res (List Byte × Option GoError) :=
  match iperfClient.readLoop c.ep.reads with
  | none => Res.blocked { c with ep := { c.ep with reads := [] } }
  | some (r, rest) => Res.ret r { c with ep := { c.ep with reads := rest } }

/-- `iperfClient.readControlMessage` of `iperf.go` (`verbose` is the constant
`true`, so the log line is always written). -/
def iperfClient.readControlMessage (c : iperfClient) : Res (state × Option GoError) :=
  match c.read with
  | Res.blocked c1 => Res.blocked c1
  | Res.ret (v, err) c1 =>
    match err, v with
    | none, [b] =>
      let cmd := toInt8 b
      if cmd > IPERF_DONE then
        Res.ret (SERVER_ERROR,
          some (GoError.other ("iperf: unknown control message: " ++ toString cmd))) c1
      else
        Res.ret (cmd, none) { c1 with trace := c1.trace ++ [Event.logControl cmd] }
    | _, _ =>
      Res.ret (SERVER_ERROR,
        some (GoError.other ("iperf: could not read control message: " ++ fmtErr err ++
          " (" ++ toString v.length ++ ")"))) c1

/-- The constant `iperfCookie` of `iperf.go`. -/
def iperfCookie : String := "fuchsia.gonetstack.012345678901234567"

/-- The constant `COOKIE_SIZE` of `iperf.go`. -/
def COOKIE_SIZE : Nat := 37

/-- The connect pattern of `run` and `connectStream`: `Connect`, and after
`ErrConnectStarted` the wait for the notification and `GetSockOpt`.  The value
is the error then held in `err`, or `none` when the notification never
arrives. -/
def connectWait (ep : Endpoint) : Option (Option GoError) :=
  if ep.connect = some GoError.ErrConnectStarted then
    if ep.notified then some ep.sockErr else none
  else some ep.connect

/-- `iperfClient.connectStream` of `iperf.go`.  The local `remote` gets the
port `c.remote.Port + uint16(num)`; the argument of `Connect` is `c.remote`. -/
def iperfClient.connectStream (c : iperfClient) (num : Int) : Res (Except GoError stream) :=
  let r := c.s.NewEndpoint
  let c0 := { c with s := r.2, trace := c.trace ++ [Event.newEndpoint (EpName.stream num)] }
  match r.1 with
  | Except.error err =>
    Res.ret (Except.error (GoError.other ("iperf: stream endpoint failed " ++ err.Error))) c0
  | Except.ok ep =>
    let remote := c.remote
    let remote := { remote with Port := (remote.Port + (num % 2 ^ 16).toNat) % 2 ^ 16 }
    let c1 := { c0 with trace := c0.trace ++ [Event.connect (EpName.stream num) c.remote] }
    match connectWait ep with
    | none => Res.blocked c1
    | some (some err) =>
      Res.ret (Except.error (GoError.other ("iperf: stream connect: " ++ err.Error))) c1
    | some none =>
      let w := ep.Write
      let c2 := { c1 with
        trace := c1.trace ++ [Event.write (EpName.stream num) (bytesOf iperfCookie)] }
      match w.1.2 with
      | some err =>
        Res.ret (Except.error (GoError.other ("iperf: could not send cookie: " ++ err.Error))) c2
      | none => Res.ret (Except.ok { ep := w.2 }) c2

/-- The goroutine that `run` starts after `TEST_START` (`iperf.go`, the
`go func()` before the loop): one `readControlMessage`, and on success one send
on the command channel.  The value is the list of the states it sends. -/
def iperfClient.runReader (c : iperfClient) : List state × iperfClient :=
  match c.readControlMessage with
  | Res.blocked c1 => ([], c1)
  | Res.ret (_, some _) c1 => ([], c1)
  | Res.ret (cmd, none) c1 => ([cmd], c1)

/-- The loop `for cmd := range cmdch` of `run` over the values received from
the command channel, in the order of delivery.  The channel is never closed:
when no value is left the loop waits for good. -/
def iperfClient.runLoop (c : iperfClient) : List state → Res (Option GoError)
  | [] => Res.blocked c
  | cmd :: rest =>
    let c1 := { c with trace := c.trace ++ [Event.chanRecv cmd] }
    if cmd = TEST_RUNNING then
      iperfClient.runLoop
        { c1 with trace := c1.trace ++
            (List.range c1.streams.length).map Event.goSend ++ [Event.goReport] } rest
    else
      Res.ret (some (GoError.other ("iperf: got control message: " ++ state.String cmd))) c1

/-- The values that reach the command channel of `run`: the one the reader
goroutine sends, and, once `TEST_RUNNING` has started the stream workers, the
`CLIENT_TERMINATE` of each worker whose connection fails.  (`timeAndReport`
never sends.) -/
def delivered (fromReader : List state) (streams : List stream) : List state :=
  match fromReader with
  | [] => []
  | cmd :: _ =>
    cmd :: (if cmd = TEST_RUNNING then
      (streams.map (fun s => (s.send 0).cmds)).flatten else [])

/-- `iperfClient.run` of `iperf.go`; `paramsDoc` is the result of
`json.Marshal` on the parameter document. -/
def iperfClient.run (c : iperfClient) (s : Stack) (remoteAddr : List Byte)
    (paramsDoc : Except GoError (List Byte)) : Res (Option GoError) :=
  let remote : FullAddress := { NIC := 1, Addr := remoteAddr, Port := 5201 }
  let r := s.NewEndpoint
  let c0 := { c with
    s := r.2, remote := remote, trace := c.trace ++ [Event.newEndpoint EpName.control] }
  match r.1 with
  | Except.error err =>
    Res.ret (some (GoError.other ("iperf: endpoint failed " ++ err.Error))) c0
  | Except.ok ep =>
    let c1 := { c0 with
      ep := ep, trace := c0.trace ++ [Event.connect EpName.control remote] }
    match connectWait ep with
    | none => Res.blocked c1
    | some (some err) =>
      Res.ret (some (GoError.other ("iperf: unable to connect " ++ err.Error))) c1
    | some none =>
      let w := c1.ep.Write
      let c2 := { c1 with
        ep := w.2, trace := c1.trace ++ [Event.write EpName.control (bytesOf iperfCookie)] }
      match w.1.2 with
      | some err =>
        Res.ret (some (GoError.other ("iperf: could not send cookie: " ++ err.Error))) c2
      | none =>
        match c2.readControlMessage with
        | Res.blocked c3 => Res.blocked c3
        | Res.ret (_, some err) c3 => Res.ret (some err) c3
        | Res.ret (cmd, none) c3 =>
          if cmd ≠ PARAM_EXCHANGE then
            Res.ret (some (GoError.other
              ("iperf: expected PARAM_EXCHANGE, got: " ++ state.String cmd))) c3
          else
            match c3.sendJSON paramsDoc with
            | (some err, c4) => Res.ret (some err) c4
            | (none, c4) =>
              match c4.readControlMessage with
              | Res.blocked c5 => Res.blocked c5
              | Res.ret (_, some err) c5 => Res.ret (some err) c5
              | Res.ret (cmd, none) c5 =>
                if cmd ≠ CREATE_STREAMS then
                  Res.ret (some (GoError.other
                    ("iperf: expected CREATE_STREAMS, got: " ++ state.String cmd))) c5
                else
                  match c5.connectStream 0 with
                  | Res.blocked c6 => Res.blocked c6
                  | Res.ret (Except.error err) c6 => Res.ret (some err) c6
                  | Res.ret (Except.ok strm) c6 =>
                    let c7 := { c6 with streams := c6.streams ++ [strm] }
                    match c7.readControlMessage with
                    | Res.blocked c8 => Res.blocked c8
                    | Res.ret (_, some err) c8 => Res.ret (some err) c8
                    | Res.ret (cmd, none) c8 =>
                      if cmd ≠ TEST_START then
                        Res.ret (some (GoError.other
                          ("iperf: expected TEST_START, got: " ++ state.String cmd))) c8
                      else
                        let c9 := { c8 with trace := c8.trace ++ [Event.goReader] }
                        let rd := c9.runReader
                        rd.2.runLoop (delivered rd.1 rd.2.streams)

/-- The client that `main` creates with `new(iperfClient)`: no streams, no
effects yet; the stack and the endpoint are set by `run`. -/
def newIperfClient : iperfClient :=
  { s := { newEndpoint := fun _ => Except.error (GoError.other "no stack"), created := 0 },
    remote := { NIC := 0, Addr := [], Port := 0 },
    ep := { connect := none, notified := false, sockErr := none, writes := [], reads := [] },
    streams := [],
    trace := [] }

/-- The state that a log line of `readControlMessage` reports. -/
def Event.control? : Event → Option state
  | Event.logControl cmd => some cmd
  | _ => none

/-- The states that the log lines of `readControlMessage` in a trace report,
in order: the control messages received. -/
def controlLog (t : List Event) : List state := t.filterMap Event.control?

/-- The value that a receive from the command channel delivers. -/
def Event.received? : Event → Option state
  | Event.chanRecv cmd => some cmd
  | _ => none

/-- The values received from the command channel that a trace records. -/
def chanLog (t : List Event) : List state := t.filterMap Event.received?

/-- The data of a write on the control connection. -/
def Event.controlWrite? : Event → Option (List Byte)
  | Event.write EpName.control data => some data
  | _ => none

/-- The writes on the control connection that a trace records. -/
def controlWrites (t : List Event) : List (List Byte) := t.filterMap Event.controlWrite?

/-- The event starts a goroutine: the reader, a stream worker or the
reporter. -/
def Event.isGo : Event → Bool
  | Event.goReader => true
  | Event.goSend _ => true
  | Event.goReport => true
  | _ => false

/-- The event concerns a stream connection: its endpoint is created,
connected or written. -/
def Event.isStream : Event → Bool
  | Event.newEndpoint (EpName.stream _) => true
  | Event.connect (EpName.stream _) _ => true
  | Event.write (EpName.stream _) _ => true
  | _ => false

/-- The control messages that the handshake of `run` expects, in order. -/
def expected : List state := [PARAM_EXCHANGE, CREATE_STREAMS, TEST_START]

/-- The sum of the byte counts of the successful writes among the outcomes. -/
def successBytes : List WriteOutcome → Nat
  | [] => 0
  | o :: rest => (if o.err = none then o.n else 0) + successBytes rest

/-- A fresh client whose control endpoint is connected and answers the
successive `Read` calls with `reads` and the successive `Write` calls with
`writes`. -/
def clientWith (writes : List WriteOutcome) (reads : List ReadOutcome) : iperfClient :=
  { newIperfClient with
    remote := { NIC := 1, Addr := [10, 0, 0, 2], Port := 5201 },
    ep := { connect := none, notified := true, sockErr := none,
            writes := writes, reads := reads } }

/-- A read that delivers the single byte `b`. -/
def oneByte (b : Byte) : ReadOutcome := { v := [b], err := none }

/-- An endpoint that connects at once, accepts three writes and answers the
reads with `reads`. -/
def epReading (reads : List ReadOutcome) : Endpoint :=
  { connect := none, notified := true, sockErr := none,
    writes := [{ n := 37, err := none }, { n := 4, err := none }, { n := 2, err := none }],
    reads := reads }

/-- A stack whose endpoint number 0 (the control connection) is `ctrl` and
whose later endpoints connect at once and accept one write. -/
def stackWith (ctrl : Endpoint) : Stack :=
  { newEndpoint := fun i =>
      if i = 0 then Except.ok ctrl
      else Except.ok { connect := none, notified := true, sockErr := none,
                       writes := [{ n := 37, err := none }], reads := [] },
    created := 0 }

/-- A stream endpoint that connects at once and accepts one write, the
cookie. -/
def epStream : Endpoint :=
  { connect := none, notified := true, sockErr := none,
    writes := [{ n := 37, err := none }], reads := [] }

/-- A stream endpoint that connects at once, accepts the cookie and one chunk
of 2048 bytes, and is then closed for send. -/
def epStreamClosing : Endpoint :=
  { connect := none, notified := true, sockErr := none,
    writes := [{ n := 37, err := none }, { n := 2048, err := none },
               { n := 0, err := some GoError.ErrClosedForSend }],
    reads := [] }

/-- A stack whose endpoint number 0 (the control connection) is `ctrl` and
whose later endpoints are `strm`. -/
def stackOf (ctrl strm : Endpoint) : Stack :=
  { newEndpoint := fun i => if i = 0 then Except.ok ctrl else Except.ok strm,
    created := 0 }

/-- A stream whose connection answers the successive writes with `writes`. -/
def streamWith (writes : List WriteOutcome) : stream :=
  { ep := { connect := none, notified := true, sockErr := none, writes := writes, reads := [] } }

/-- The text of an error contains the given name (as a run of consecutive
characters). -/
def containsText (text name : String) : Prop := name.toList <:+: text.toList

instance (text name : String) : Decidable (containsText text name) := by
  unfold containsText
  infer_instance

/-- The next control message that the script `reads` of the control
connection delivers is the single byte `b`, and `rest` is the script after it:
the loop of `read` skips would-block outcomes and then meets a read of exactly
one byte with a nil error. -/
def delivers (reads : List ReadOutcome) (b : Byte) (rest : List ReadOutcome) : Prop :=
  iperfClient.readLoop reads = some (([b], none), rest)

/-- The script lets `run` send the cookie: the next endpoint of the stack is
`ep`, its connect succeeds and its first write succeeds; `ws` are the write
outcomes after it. -/
def cookieSent (s : Stack) (ep : Endpoint) (ws : List WriteOutcome) : Prop :=
  s.newEndpoint s.created = Except.ok ep ∧ connectWait ep = some none ∧
    ∃ n, ep.writes = { n := n, err := none } :: ws

/-- The script lets `sendJSON` send the parameter document: it marshals to `d`
and the next two writes of the control connection, the head of `ws`, succeed;
`ws1` are the write outcomes after them. -/
def paramsSent (paramsDoc : Except GoError (List Byte)) (d : List Byte)
    (ws ws1 : List WriteOutcome) : Prop :=
  paramsDoc = Except.ok d ∧
    ∃ n1 n2, ws = { n := n1, err := none } :: { n := n2, err := none } :: ws1

/-- The script lets `connectStream` open the stream: the second endpoint of
the stack is `ep2`, its connect succeeds and its first write (the cookie)
succeeds; `ws2` are the write outcomes after it. -/
def streamOpened (s : Stack) (ep2 : Endpoint) (ws2 : List WriteOutcome) : Prop :=
  s.newEndpoint (s.created + 1) = Except.ok ep2 ∧ connectWait ep2 = some none ∧
    ∃ n, ep2.writes = { n := n, err := none } :: ws2

/-- The effects of `run` up to the cookie on the control connection. -/
def traceCookie (remoteAddr : List Byte) : List Event :=
  [Event.newEndpoint EpName.control,
   Event.connect EpName.control { NIC := 1, Addr := remoteAddr, Port := 5201 },
   Event.write EpName.control (bytesOf iperfCookie)]

/-- The effects of `run` up to the parameter document `d`. -/
def traceParams (remoteAddr d : List Byte) : List Event :=
  traceCookie remoteAddr ++
    [Event.logControl PARAM_EXCHANGE,
     Event.write EpName.control (putUint32 d.length),
     Event.write EpName.control d]

/-- The effects of `run` up to the cookie on the stream connection. -/
def traceStream (remoteAddr d : List Byte) : List Event :=
  traceParams remoteAddr d ++
    [Event.logControl CREATE_STREAMS,
     Event.newEndpoint (EpName.stream 0),
     Event.connect (EpName.stream 0) { NIC := 1, Addr := remoteAddr, Port := 5201 },
     Event.write (EpName.stream 0) (bytesOf iperfCookie)]

/-- The run `r` stops at the control message `b`, received after the effects
`before`.  When `readControlMessage` accepts the byte (its `int8` value is at
most `IPERF_DONE`), `run` logs it and returns the error `fmt` followed by the
`String()` name of the state, and makes no further step.  When the decoder
refuses the byte, `run` returns the decoder's error, which carries the decimal
value of the byte, and makes no further step. -/
def refused (r : Res (Option GoError)) (fmt : String) (b : Byte) (before : List Event) :
    Prop :=
  (¬ toInt8 b > IPERF_DONE →
    r.val? = some (some (GoError.other (fmt ++ state.String (toInt8 b)))) ∧
    containsText (fmt ++ state.String (toInt8 b)) (state.String (toInt8 b)) ∧
    r.client.trace = before ++ [Event.logControl (toInt8 b)]) ∧
  (toInt8 b > IPERF_DONE →
    r.val? = some (some (GoError.other
      ("iperf: unknown control message: " ++ toString (toInt8 b)))) ∧
    r.client.trace = before)

/-- The script lets `run` complete the handshake: the cookie is sent, the
control connection delivers `PARAM_EXCHANGE`, the parameter document is sent,
the control connection delivers `CREATE_STREAMS`, the stream is opened, and the
control connection delivers `TEST_START`; `rest3` is the read script of the
control connection after that, `ws2` the write script of the stream. -/
def handshakeDone (s : Stack) (paramsDoc : Except GoError (List Byte)) (d : List Byte)
    (ws2 : List WriteOutcome) (rest3 : List ReadOutcome) : Prop :=
  ∃ ep ws ws1 ep2 rest1 rest2, cookieSent s ep ws ∧ delivers ep.reads 9 rest1 ∧
    paramsSent paramsDoc d ws ws1 ∧ delivers rest1 10 rest2 ∧
    streamOpened s ep2 ws2 ∧ delivers rest2 1 rest3

/-- How a run of the client on the stack `s` stands with respect to the
handshake.  Either it stopped during the handshake after `j` expected control
messages and no other; or its message number `j` (counted from 0) was `cmd`
where `exp` was expected, it returned an error whose text ends with the name of
`cmd`, and no later step was made; or the control connection delivered the
three expected bytes and the run went on to the loop, where every value
received other than `TEST_RUNNING` makes it return an error naming that
value. -/
def HandshakeOutcome (s : Stack) (r : Res (Option GoError)) : Prop :=
  (∃ j, j ≤ 3 ∧ controlLog r.client.trace = expected.take j ∧
    r.client.trace.filter Event.isGo = [] ∧ chanLog r.client.trace = []) ∨
  (∃ j cmd exp pre, expected[j]? = some exp ∧ cmd ≠ exp ∧
    controlLog r.client.trace = expected.take j ++ [cmd] ∧
    r.val? = some (some (GoError.other (pre ++ state.String cmd))) ∧
    r.client.trace.filter Event.isGo = [] ∧ chanLog r.client.trace = [] ∧
    (j ≤ 1 → r.client.trace.filter Event.isStream = []) ∧
    (j = 0 → controlWrites r.client.trace = [bytesOf iperfCookie])) ∨
  ((∃ ep rest1 rest2 rest3, s.newEndpoint s.created = Except.ok ep ∧
      delivers ep.reads 9 rest1 ∧ delivers rest1 10 rest2 ∧ delivers rest2 1 rest3) ∧
    ∃ more, controlLog r.client.trace = expected ++ more ∧
      ∀ v ∈ chanLog r.client.trace, v ≠ TEST_RUNNING →
        ∃ pre, r.val? = some (some (GoError.other (pre ++ state.String v))))

/-! ## Theorems: `link.go` -/

theorem wrapInt_wrapInt_add (x y : Int) : wrapInt (wrapInt x + y) = wrapInt (x + y) := by
  unfold wrapInt
  omega

theorem wrapInt_of_small (x : Int) (h0 : -(2 ^ 63) ≤ x) (h1 : x < 2 ^ 63) : wrapInt x = x := by
  unfold wrapInt
  omega

theorem writePacket_count (e : dropLink) (p : Packet) :
    (e.WritePacket p).2.count = wrapInt (e.count + 1) := by
  unfold dropLink.WritePacket
  simp only
  split
  · rfl
  · split <;> rfl

theorem sends_count (ps : List Packet) :
    ∀ (e e1 : dropLink), e.sends ps = some e1 →
      wrapInt e1.count = wrapInt (e.count + ps.length) := by
  induction ps with
  | nil =>
    intro e e1 h
    simp only [dropLink.sends, Option.some.injEq] at h
    subst h
    simp
  | cons p ps ih =>
    intro e e1 h
    have hc := writePacket_count e p
    unfold dropLink.sends at h
    split at h
    · exact absurd h (by simp)
    · rename_i r e2 heq
      have h2 := ih e2 e1 h
      rw [heq] at hc
      simp only at hc
      rw [h2, hc, wrapInt_wrapInt_add]
      simp only [List.length_cons, Nat.cast_add, Nat.cast_one]
      congr 1
      ring

/-- After `n` calls on a fresh `dropLink` the next call numbers itself
`wrapInt (n + 1)`. -/
theorem sends_fresh_next (lower : LinkEndpoint) (ps : List Packet) (e : dropLink)
    (h : (newDrop lower).sends ps = some e) :
    wrapInt (e.count + 1) = wrapInt ((ps.length : Int) + 1) := by
  have h1 := sends_count ps _ _ h
  have h2 : wrapInt (e.count + 1) = wrapInt (wrapInt e.count + 1) :=
    (wrapInt_wrapInt_add _ _).symm
  rw [h2, h1, wrapInt_wrapInt_add]
  simp [newDrop]

theorem isRetransmit_not_ipv4 (protocol : Nat) (b plb : List Byte)
    (h : protocol ≠ IPv4ProtocolNumber) : isRetransmit protocol b plb = some false := by
  unfold isRetransmit
  rw [if_neg h]

/-- What a call does when the every-800th rule fires. -/
theorem writePacket_of_drop (e : dropLink) (p : Packet)
    (h : Int.tmod (wrapInt (e.count + 1)) 800 = 0) :
    (e.WritePacket p).1 = WriteResult.returned none ∧
      (e.WritePacket p).2.lower.calls = e.lower.calls := by
  unfold dropLink.WritePacket
  simp only [h, if_true, and_self]

/-- What a call does when the every-800th rule does not fire, by the value of
`isRetransmit`. -/
theorem writePacket_of_pass (e : dropLink) (p : Packet)
    (h : Int.tmod (wrapInt (e.count + 1)) 800 ≠ 0) :
    (isRetransmit p.protocol p.hdr p.payload = none →
      (e.WritePacket p).1 = WriteResult.panicked ∧
      (e.WritePacket p).2.lower.calls = e.lower.calls ++ [p]) ∧
    (isRetransmit p.protocol p.hdr p.payload = some false →
      (e.WritePacket p).1 = WriteResult.returned (e.lower.resp e.lower.calls.length) ∧
      (e.WritePacket p).2.lower.calls = e.lower.calls ++ [p]) ∧
    (isRetransmit p.protocol p.hdr p.payload = some true →
      (e.WritePacket p).1 = WriteResult.returned (e.lower.resp (e.lower.calls.length + 1)) ∧
      (e.WritePacket p).2.lower.calls = e.lower.calls ++ [p, p]) := by
  unfold dropLink.WritePacket
  simp only [h, if_false, LinkEndpoint.WritePacket]
  refine ⟨?_, ?_, ?_⟩ <;> intro hr <;> simp [hr]

theorem sends_replicate_arp (m : Nat) :
    ∀ e : dropLink, ∃ e1, e.sends (List.replicate m pktArp) = some e1 := by
  induction m with
  | zero => intro e; exact ⟨e, rfl⟩
  | succ m ih =>
    intro e
    have hr : isRetransmit pktArp.protocol pktArp.hdr pktArp.payload = some false :=
      isRetransmit_not_ipv4 _ _ _ (by decide)
    simp only [List.replicate_succ, dropLink.sends]
    by_cases h : Int.tmod (wrapInt (e.count + 1)) 800 = 0
    · have h1 := (writePacket_of_drop e pktArp h).1
      obtain ⟨e2, he2⟩ := ih (e.WritePacket pktArp).2
      refine ⟨e2, ?_⟩
      rw [← he2]
      split
      · rename_i x heq; rw [heq] at h1; exact absurd h1 (by simp)
      · rename_i r e3 heq; rw [heq]
    · have h1 := ((writePacket_of_pass e pktArp h).2.1 hr).1
      obtain ⟨e2, he2⟩ := ih (e.WritePacket pktArp).2
      refine ⟨e2, ?_⟩
      rw [← he2]
      split
      · rename_i x heq; rw [heq] at h1; exact absurd h1 (by simp)
      · rename_i r e3 heq; rw [heq]

/-- C3 (amended): starting from a fresh `dropLink`, for every `n` with
`1 ≤ n < 2^63` (the send counter, a 64-bit `int`, has not wrapped) the `n`-th
`WritePacket` call is dropped (returns `nil`, no call to the lower endpoint) if
and only if `n` is a multiple of 800, and every other call hands the same
packet to the lower endpoint at least once. -/
theorem writePacket_drop_cadence (lower : LinkEndpoint) (ps : List Packet) (p : Packet)
    (e : dropLink) (hreach : (newDrop lower).sends ps = some e)
    (hn : ps.length + 1 < 2 ^ 63) :
    (e.dropped p ↔ 800 ∣ ps.length + 1) ∧
    (¬ 800 ∣ ps.length + 1 →
      ∃ k, 1 ≤ k ∧ (e.WritePacket p).2.lower.calls = e.lower.calls ++ List.replicate k p) := by
  have hc := sends_fresh_next lower ps e hreach
  have hw : wrapInt ((ps.length : Int) + 1) = ((ps.length + 1 : Nat) : Int) := by
    rw [wrapInt_of_small] <;> push_cast <;> omega
  rw [hw] at hc
  have hmod : Int.tmod (wrapInt (e.count + 1)) 800 = 0 ↔ 800 ∣ ps.length + 1 := by
    rw [hc]
    constructor
    · intro h
      have h2 : ((ps.length + 1 : Nat) : Int) % 800 = 0 := by
        rw [Int.tmod_eq_emod (by positivity) (by norm_num)] at h
        exact h
      omega
    · intro h
      rw [Int.tmod_eq_emod (by positivity) (by norm_num)]
      omega
  have hpass : ¬ 800 ∣ ps.length + 1 →
      ∃ k, 1 ≤ k ∧ (e.WritePacket p).2.lower.calls = e.lower.calls ++ List.replicate k p := by
    intro hnd
    have hne : Int.tmod (wrapInt (e.count + 1)) 800 ≠ 0 := fun h => hnd (hmod.1 h)
    have h3 := writePacket_of_pass e p hne
    cases hr : isRetransmit p.protocol p.hdr p.payload with
    | none => exact ⟨1, le_refl _, (h3.1 hr).2⟩
    | some b =>
      cases b with
      | false => exact ⟨1, le_refl _, (h3.2.1 hr).2⟩
      | true => exact ⟨2, by omega, (h3.2.2 hr).2⟩
  refine ⟨⟨?_, ?_⟩, hpass⟩
  · intro hd
    by_contra hnd
    obtain ⟨k, hk, hcalls⟩ := hpass hnd
    have := hd.2
    rw [hcalls] at this
    have hl := congrArg List.length this
    simp at hl
    omega
  · intro hdvd
    exact writePacket_of_drop e p (hmod.2 hdvd)

/-- Witness of `writePacket_drop_cadence`: the first call on a fresh
`dropLink` is passed on, and the call after 799 calls is dropped. -/
theorem writePacket_drop_cadence_witness :
    (((newDrop lowerOk).dropped pktAck ↔ 800 ∣ ([] : List Packet).length + 1) ∧
    (¬ 800 ∣ ([] : List Packet).length + 1 →
      ∃ k, 1 ≤ k ∧ ((newDrop lowerOk).WritePacket pktAck).2.lower.calls =
        (newDrop lowerOk).lower.calls ++ List.replicate k pktAck)) ∧
    (∃ e, (newDrop lowerOk).sends (List.replicate 799 pktArp) = some e ∧
      e.dropped pktAck) := by
  refine ⟨writePacket_drop_cadence lowerOk [] pktAck (newDrop lowerOk) rfl (by decide), ?_⟩
  obtain ⟨e, he⟩ := sends_replicate_arp 799 (newDrop lowerOk)
  have h := (writePacket_drop_cadence lowerOk (List.replicate 799 pktArp) pktAck e he
    (by rw [List.length_replicate]; decide)).1
  exact ⟨e, he, h.mpr (by rw [List.length_replicate])⟩

/-- C3 (counterexample): after `9223372036854775999` calls on a fresh
`dropLink` the 64-bit send counter has wrapped: call number
`9223372036854776000`, a multiple of 800, is not dropped. -/
theorem writePacket_drop_cadence_wraps :
    ∃ e, (newDrop lowerOk).sends (List.replicate 9223372036854775999 pktArp) = some e ∧
      800 ∣ (List.replicate 9223372036854775999 pktArp).length + 1 ∧
      ¬ e.dropped pktArp := by
  obtain ⟨e, he⟩ := sends_replicate_arp 9223372036854775999 (newDrop lowerOk)
  refine ⟨e, he, ?_, ?_⟩
  · rw [List.length_replicate]; decide
  · have hc := sends_fresh_next lowerOk _ e he
    rw [List.length_replicate] at hc
    have hv : wrapInt (((9223372036854775999 : Nat) : Int) + 1) = -9223372036854775616 := by
      unfold wrapInt; norm_num
    rw [hv] at hc
    have hne : Int.tmod (wrapInt (e.count + 1)) 800 ≠ 0 := by
      rw [hc]; decide
    have hr : isRetransmit pktArp.protocol pktArp.hdr pktArp.payload = some false :=
      isRetransmit_not_ipv4 _ _ _ (by decide)
    have h3 := ((writePacket_of_pass e pktArp hne).2.1 hr).2
    intro hd
    have h4 := hd.2
    rw [h3] at h4
    have hl := congrArg List.length h4
    simp at hl

theorem headerLength_eq (v : Byte) : ((v.val &&& 0xf) * 4) % 256 = (v.val % 16) * 4 := by
  have h : v.val &&& 0xf = v.val % 16 := Nat.and_pow_two_sub_one_eq_mod v.val 4
  rw [h]
  omega

/-- The value of `isRetransmit` on an IPv4 packet, by the shape of the header:
no octet 9, a header length beyond the bytes present, a transport protocol
other than TCP, no TCP flags octet, or a TCP flags octet. -/
theorem isRetransmit_ipv4 (b plb : List Byte) :
    (b.length < 10 → isRetransmit IPv4ProtocolNumber b plb = none) ∧
    (∀ v q : Byte, b[0]? = some v → b[9]? = some q →
      (b.length < (v.val % 16) * 4 → isRetransmit IPv4ProtocolNumber b plb = none) ∧
      ((v.val % 16) * 4 ≤ b.length → q.val ≠ TCPProtocolNumber →
        isRetransmit IPv4ProtocolNumber b plb = some false) ∧
      (q.val = TCPProtocolNumber → (v.val % 16) * 4 ≤ b.length →
        b.length < (v.val % 16) * 4 + 14 →
        isRetransmit IPv4ProtocolNumber b plb = none) ∧
      (∀ f : Byte, q.val = TCPProtocolNumber → b[(v.val % 16) * 4 + 13]? = some f →
        isRetransmit IPv4ProtocolNumber b plb = some (decide (f.val &&& 0x08 ≠ 0)))) := by
  refine ⟨?_, ?_⟩
  · intro h
    have h9 : b[9]? = none := List.getElem?_eq_none (by omega)
    simp [isRetransmit, IPv4.Protocol, h9]
  · intro v q h0 h9
    refine ⟨?_, ?_, ?_, ?_⟩
    · intro hlen
      have hn : ¬ (v.val % 16) * 4 ≤ b.length := by omega
      simp [isRetransmit, IPv4.Protocol, IPv4.HeaderLength, h0, h9, sliceFrom,
        headerLength_eq, hn]
    · intro hlen hq
      simp [isRetransmit, IPv4.Protocol, IPv4.HeaderLength, h0, h9, sliceFrom,
        headerLength_eq, hlen, hq]
    · intro hq hlen hshort
      have h13 : (List.drop ((v.val % 16) * 4) b)[13]? = none :=
        List.getElem?_eq_none (by simp; omega)
      simp [isRetransmit, IPv4.Protocol, IPv4.HeaderLength, h0, h9, sliceFrom,
        headerLength_eq, hlen, hq, TCP.Flags, h13]
    · intro f hq hf
      have hlt : (v.val % 16) * 4 + 13 < b.length := by
        by_contra hge
        rw [List.getElem?_eq_none (by omega)] at hf
        exact absurd hf (by simp)
      have hlen : (v.val % 16) * 4 ≤ b.length := by omega
      have h13 : (List.drop ((v.val % 16) * 4) b)[13]? = some f := by
        rw [List.getElem?_drop]; exact hf
      simp [isRetransmit, IPv4.Protocol, IPv4.HeaderLength, h0, h9, sliceFrom,
        headerLength_eq, hlen, hq, TCP.Flags, h13]
      split <;> simp_all

/-- C4: for every `WritePacket` call that the every-800th rule lets pass and
whose header is a well-formed IPv4 header followed by a TCP header (the
network protocol of the call being IPv4), the lower endpoint receives the
packet exactly twice when bit 3 (mask 0x08) of the TCP flags octet is set and
exactly once when it is clear. -/
theorem writePacket_retransmit_count (e : dropLink) (p : Packet) (hpass : e.passes)
    (hproto : p.protocol = IPv4ProtocolNumber) (hwf : wellFormedIPv4TCP p.hdr = true) :
    ∃ f, tcpFlagsOctet p.hdr = some f ∧
      (f &&& 0x08 ≠ 0 → (e.WritePacket p).2.lower.calls = e.lower.calls ++ [p, p]) ∧
      (f &&& 0x08 = 0 → (e.WritePacket p).2.lower.calls = e.lower.calls ++ [p]) := by
  unfold wellFormedIPv4TCP at hwf
  split at hwf
  · rename_i v q h0 h9
    simp only [decide_eq_true_eq] at hwf
    obtain ⟨_, _, hlen, hq⟩ := hwf
    have hlt : (v.val % 16) * 4 + 13 < p.hdr.length := by omega
    have hf : (p.hdr)[(v.val % 16) * 4 + 13]? = some ((p.hdr)[(v.val % 16) * 4 + 13]) :=
      List.getElem?_eq_getElem hlt
    have hr := ((isRetransmit_ipv4 p.hdr p.payload).2 v q h0 h9).2.2.2 _ hq hf
    rw [← hproto] at hr
    have h3 := writePacket_of_pass e p hpass
    refine ⟨((p.hdr)[(v.val % 16) * 4 + 13]).val, ?_, ?_, ?_⟩
    · simp [tcpFlagsOctet, h0, hf]
    · intro hset
      rw [decide_eq_true hset] at hr
      exact (h3.2.2 hr).2
    · intro hclear
      have hd : decide (((p.hdr)[(v.val % 16) * 4 + 13]).val &&& 0x08 ≠ 0) = false :=
        decide_eq_false (by simp [hclear])
      rw [hd] at hr
      exact (h3.2.1 hr).2
  · exact absurd hwf (by simp)

/-- Witness of `writePacket_retransmit_count`: a TCP segment with ACK and PSH
on a fresh `dropLink`. -/
theorem writePacket_retransmit_count_witness :
    ∃ f, tcpFlagsOctet pktPsh.hdr = some f ∧
      (f &&& 0x08 ≠ 0 → ((newDrop lowerOk).WritePacket pktPsh).2.lower.calls =
        (newDrop lowerOk).lower.calls ++ [pktPsh, pktPsh]) ∧
      (f &&& 0x08 = 0 → ((newDrop lowerOk).WritePacket pktPsh).2.lower.calls =
        (newDrop lowerOk).lower.calls ++ [pktPsh]) :=
  writePacket_retransmit_count (newDrop lowerOk) pktPsh (by decide) rfl (by decide)

/-- C7 (the code at the failing input): the every-800th rule lets the call
pass, the segment carries PSH, the first write to the lower endpoint fails and
the second succeeds; `WritePacket` returns `nil`, the failure is lost. -/
theorem writePacket_loses_first_error :
    (newDrop lowerFailFirst).passes ∧
    lowerFailFirst.resp 0 = some (GoError.other "link: send failed") ∧
    lowerFailFirst.resp 1 = none ∧
    ((newDrop lowerFailFirst).WritePacket pktPsh).2.lower.calls = [pktPsh, pktPsh] ∧
    ((newDrop lowerFailFirst).WritePacket pktPsh).1 = WriteResult.returned none := by
  refine ⟨by decide, rfl, rfl, ?_, ?_⟩
  · decide
  · decide

/-- C8 (counterexample): on an IPv4 packet with an empty header `isRetransmit`
fails (index out of range at octet 9), and so does the `WritePacket` call. -/
theorem isRetransmit_panics_on_empty :
    isRetransmit IPv4ProtocolNumber [] [] = none ∧
    ((newDrop lowerOk).WritePacket
      { route := 0, hdr := [], payload := [], protocol := IPv4ProtocolNumber }).1 =
        WriteResult.panicked := by
  constructor <;> decide

/-- C8 (amended): for a protocol other than IPv4 `isRetransmit` returns false
on every header, the empty one included; for IPv4 it returns false when octet 9
exists, the IPv4 header length does not exceed the bytes present and the
transport protocol is not TCP; a packet on which it returns false, if the
every-800th rule lets it pass, is written to the lower endpoint exactly once.
On an IPv4 header shorter than 10 octets, one whose header-length field exceeds
the bytes present, and a TCP one too short to hold the flags octet, the code
fails with an index out of range. -/
theorem isRetransmit_false_or_panics :
    (∀ protocol b plb, protocol ≠ IPv4ProtocolNumber →
      isRetransmit protocol b plb = some false) ∧
    (∀ (b plb : List Byte) (v q : Byte), b[0]? = some v → b[9]? = some q →
      (v.val % 16) * 4 ≤ b.length → q.val ≠ TCPProtocolNumber →
      isRetransmit IPv4ProtocolNumber b plb = some false) ∧
    (∀ (e : dropLink) (p : Packet), e.passes →
      isRetransmit p.protocol p.hdr p.payload = some false →
      (e.WritePacket p).2.lower.calls = e.lower.calls ++ [p]) ∧
    (∀ b plb : List Byte, b.length < 10 → isRetransmit IPv4ProtocolNumber b plb = none) ∧
    (∀ (b plb : List Byte) (v q : Byte), b[0]? = some v → b[9]? = some q →
      b.length < (v.val % 16) * 4 → isRetransmit IPv4ProtocolNumber b plb = none) ∧
    (∀ (b plb : List Byte) (v q : Byte), b[0]? = some v → b[9]? = some q →
      q.val = TCPProtocolNumber → (v.val % 16) * 4 ≤ b.length →
      b.length < (v.val % 16) * 4 + 14 → isRetransmit IPv4ProtocolNumber b plb = none) := by
  refine ⟨isRetransmit_not_ipv4, ?_, ?_, ?_, ?_, ?_⟩
  · intro b plb v q h0 h9 hlen hq
    exact ((isRetransmit_ipv4 b plb).2 v q h0 h9).2.1 hlen hq
  · intro e p hpass hr
    exact ((writePacket_of_pass e p hpass).2.1 hr).2
  · intro b plb h
    exact (isRetransmit_ipv4 b plb).1 h
  · intro b plb v q h0 h9 hlen
    exact ((isRetransmit_ipv4 b plb).2 v q h0 h9).1 hlen
  · intro b plb v q h0 h9 hq hlen hshort
    exact ((isRetransmit_ipv4 b plb).2 v q h0 h9).2.2.1 hq hlen hshort

/-- Witness of `isRetransmit_false_or_panics`: an ARP packet with an empty
header, a UDP datagram, and the UDP datagram on a fresh `dropLink`. -/
theorem isRetransmit_false_or_panics_witness :
    isRetransmit pktArp.protocol [] [] = some false ∧
    isRetransmit IPv4ProtocolNumber pktUdp.hdr [] = some false ∧
    ((newDrop lowerOk).WritePacket pktUdp).2.lower.calls =
      (newDrop lowerOk).lower.calls ++ [pktUdp] ∧
    isRetransmit IPv4ProtocolNumber [0x45] [] = none ∧
    isRetransmit IPv4ProtocolNumber [0x4f, 0, 0, 0, 0, 0, 0, 0, 0, 6] [] = none ∧
    isRetransmit IPv4ProtocolNumber (pktPsh.hdr.take 30) [] = none :=
  ⟨isRetransmit_false_or_panics.1 pktArp.protocol [] [] (by decide),
   isRetransmit_false_or_panics.2.1 pktUdp.hdr [] 0x45 17 rfl rfl (by decide) (by decide),
   isRetransmit_false_or_panics.2.2.1 (newDrop lowerOk) pktUdp (by decide) (by decide),
   isRetransmit_false_or_panics.2.2.2.1 [0x45] [] (by decide),
   isRetransmit_false_or_panics.2.2.2.2.1 [0x4f, 0, 0, 0, 0, 0, 0, 0, 0, 6] [] 0x4f 6
     rfl rfl (by decide),
   isRetransmit_false_or_panics.2.2.2.2.2 (pktPsh.hdr.take 30) [] 0x45 6
     rfl rfl (by decide) (by decide) (by decide)⟩

/-! ## Theorems: `iperf.go` -/

theorem read_ret_readControlMessage (c c1 : iperfClient) (b : Byte)
    (h : c.read = Res.ret ([b], none) c1) :
    c.readControlMessage =
      if toInt8 b > IPERF_DONE then
        Res.ret (SERVER_ERROR,
          some (GoError.other ("iperf: unknown control message: " ++ toString (toInt8 b)))) c1
      else
        Res.ret (toInt8 b, none)
          { c1 with trace := c1.trace ++ [Event.logControl (toInt8 b)] } := by
  unfold iperfClient.readControlMessage
  rw [h]

/-- C1 (counterexample): the single byte 255 is read; `readControlMessage`
returns the state `ACCESS_DENIED` (-1) with a nil error. -/
theorem readControlMessage_accepts_255 :
    (clientWith [] [oneByte 255]).read.val? = some ([255], none) ∧
    (17 ≤ (255 : Byte).val ∧ (255 : Byte).val ≤ 255) ∧
    (clientWith [] [oneByte 255]).readControlMessage.val? = some (ACCESS_DENIED, none) := by
  refine ⟨by decide, by decide, by decide⟩

/-- C1 (amended): for every single-byte control read whose byte `b` satisfies
`17 ≤ b ≤ 127`, `readControlMessage` returns an error; the bytes 254 and 255
are the `int8` values -2 and -1 and are returned as the states `SERVER_ERROR`
and `ACCESS_DENIED` with a nil error. -/
theorem readControlMessage_byte (c c1 : iperfClient) (b : Byte)
    (h : c.read = Res.ret ([b], none) c1) :
    (17 ≤ b.val → b.val ≤ 127 →
      ∃ e, c.readControlMessage.val? = some (SERVER_ERROR, some e)) ∧
    (b.val = 254 → c.readControlMessage.val? = some (SERVER_ERROR, none)) ∧
    (b.val = 255 → c.readControlMessage.val? = some (ACCESS_DENIED, none)) := by
  rw [read_ret_readControlMessage c c1 b h]
  refine ⟨?_, ?_, ?_⟩
  · intro h1 h2
    have hgt : toInt8 b > IPERF_DONE := by
      unfold toInt8
      rw [if_pos (by omega)]
      show (16 : Int) < (b.val : Int)
      omega
    rw [if_pos hgt]
    exact ⟨_, rfl⟩
  · intro hb
    have hv : toInt8 b = SERVER_ERROR := by
      unfold toInt8
      rw [if_neg (by omega), hb]
      rfl
    rw [hv]
    rfl
  · intro hb
    have hv : toInt8 b = ACCESS_DENIED := by
      unfold toInt8
      rw [if_neg (by omega), hb]
      rfl
    rw [hv]
    rfl

/-- Witness of `readControlMessage_byte`: the bytes 17, 254 and 255. -/
theorem readControlMessage_byte_witness :
    (∃ e, (clientWith [] [oneByte 17]).readControlMessage.val? =
      some (SERVER_ERROR, some e)) ∧
    (clientWith [] [oneByte 254]).readControlMessage.val? = some (SERVER_ERROR, none) ∧
    (clientWith [] [oneByte 255]).readControlMessage.val? = some (ACCESS_DENIED, none) :=
  ⟨(readControlMessage_byte (clientWith [] [oneByte 17]) (clientWith [] []) 17 rfl).1
     (by decide) (by decide),
   (readControlMessage_byte (clientWith [] [oneByte 254]) (clientWith [] []) 254 rfl).2.1
     (by decide),
   (readControlMessage_byte (clientWith [] [oneByte 255]) (clientWith [] []) 255 rfl).2.2
     (by decide)⟩

/-- C5 (the code at the failing input): `connectStream 1` on a client whose
control address has port 5201 issues its `Connect` to port 5201, not 5202; the
client's stored address is unchanged. -/
theorem connectStream_connects_to_control_port :
    ({ clientWith [] [] with s := stackWith (epReading []) }.connectStream 1).client.trace =
      [Event.newEndpoint (EpName.stream 1),
       Event.connect (EpName.stream 1) { NIC := 1, Addr := [10, 0, 0, 2], Port := 5201 },
       Event.write (EpName.stream 1) (bytesOf iperfCookie)] ∧
    ({ clientWith [] [] with s := stackWith (epReading []) }.connectStream 1).client.remote =
      { NIC := 1, Addr := [10, 0, 0, 2], Port := 5201 } ∧
    (∀ num : Int,
      ({ clientWith [] [] with s := stackWith (epReading []) }.connectStream num).client.trace =
        [Event.newEndpoint (EpName.stream num),
         Event.connect (EpName.stream num) { NIC := 1, Addr := [10, 0, 0, 2], Port := 5201 },
         Event.write (EpName.stream num) (bytesOf iperfCookie)]) := by
  refine ⟨by decide, by decide, ?_⟩
  intro num
  rfl

/-- C6 (the code at the failing input): the write of the length prefix
reports would-block and a retry would succeed; `sendJSON` returns an error
after that one write and makes no second attempt. -/
theorem sendJSON_fails_on_would_block :
    ((clientWith [{ n := 0, err := some GoError.ErrWouldBlock }, { n := 4, err := none },
        { n := 2, err := none }] []).sendJSON (Except.ok (bytesOf "{}"))).1 =
      some (GoError.other "iperf: send JSON size: operation would block") ∧
    ((clientWith [{ n := 0, err := some GoError.ErrWouldBlock }, { n := 4, err := none },
        { n := 2, err := none }] []).sendJSON (Except.ok (bytesOf "{}"))).2.trace =
      [Event.write EpName.control [0, 0, 0, 2]] ∧
    ((clientWith [{ n := 0, err := some GoError.ErrWouldBlock }, { n := 4, err := none },
        { n := 2, err := none }] []).sendJSON (Except.ok (bytesOf "{}"))).2.ep.writes =
      [{ n := 4, err := none }, { n := 2, err := none }] ∧
    ((clientWith [{ n := 4, err := none }, { n := 2, err := none }] []).sendJSON
        (Except.ok (bytesOf "{}"))).1 = none := by
  refine ⟨by decide, by decide, by decide, by decide⟩

theorem sendLoop_counter (pre : List WriteOutcome) (last : WriteOutcome)
    (rest : List WriteOutcome)
    (hpre : ∀ o ∈ pre, o.err = none ∨ o.err = some GoError.ErrWouldBlock)
    (hlast : last.err ≠ none ∧ last.err ≠ some GoError.ErrWouldBlock) :
    ∀ sent0 : Nat, sent0 < 2 ^ 64 →
      (stream.sendLoop (pre ++ last :: rest) sent0).sent = (sent0 + successBytes pre) % 2 ^ 64 ∧
      (stream.sendLoop (pre ++ last :: rest) sent0).cmds = [CLIENT_TERMINATE] ∧
      (stream.sendLoop (pre ++ last :: rest) sent0).finished = true := by
  induction pre with
  | nil =>
    intro sent0 h0
    simp only [List.nil_append, stream.sendLoop, successBytes, add_zero]
    rw [if_neg hlast.2]
    by_cases hc : last.err = some GoError.ErrClosedForSend
    · rw [if_pos hc]
      exact ⟨(Nat.mod_eq_of_lt h0).symm, rfl, rfl⟩
    · rw [if_neg hc, if_pos hlast.1]
      exact ⟨(Nat.mod_eq_of_lt h0).symm, rfl, rfl⟩
  | cons o pre ih =>
    intro sent0 h0
    have ho := hpre o (List.mem_cons_self _ _)
    have ih1 := ih (fun x hx => hpre x (List.mem_cons_of_mem _ hx))
    simp only [List.cons_append, stream.sendLoop, successBytes]
    rcases ho with ho | ho
    · have h1 : o.err ≠ some GoError.ErrWouldBlock := by rw [ho]; simp
      have h2 : o.err ≠ some GoError.ErrClosedForSend := by rw [ho]; simp
      rw [if_neg h1, if_neg h2, if_neg (by simp [ho]), if_pos ho]
      by_cases hn : o.n > 0
      · rw [if_pos hn]
        have hlt : (sent0 + o.n % 2 ^ 64) % 2 ^ 64 < 2 ^ 64 := Nat.mod_lt _ (by norm_num)
        obtain ⟨ha, hb, hc⟩ := ih1 _ hlt
        refine ⟨ha.trans ?_, hb, hc⟩
        omega
      · rw [if_neg hn]
        obtain ⟨ha, hb, hc⟩ := ih1 _ h0
        refine ⟨ha.trans ?_, hb, hc⟩
        have : o.n = 0 := by omega
        rw [this]
        simp
    · rw [if_pos ho]
      obtain ⟨ha, hb, hc⟩ := ih1 _ h0
      refine ⟨ha.trans ?_, hb, hc⟩
      rw [if_neg (by rw [ho]; simp)]
      simp

/-- C9 (amended): for every sequence of write outcomes of one stream worker
that ends at the first error other than would-block, the byte counter (a
`uint64`) ends at its initial value plus the sum of the byte counts of the
successful writes, reduced modulo `2^64`, which is that sum itself when it is
below `2^64`; would-block outcomes add nothing and do not end the loop; and the
worker sends exactly one value, `CLIENT_TERMINATE`, on the command channel and
returns at that error. -/
theorem send_counter (s : stream) (pre : List WriteOutcome) (last : WriteOutcome)
    (rest : List WriteOutcome) (sent0 : Nat)
    (hs : s.ep.writes = pre ++ last :: rest) (h0 : sent0 < 2 ^ 64)
    (hpre : ∀ o ∈ pre, o.err = none ∨ o.err = some GoError.ErrWouldBlock)
    (hlast : last.err ≠ none ∧ last.err ≠ some GoError.ErrWouldBlock) :
    (s.send sent0).sent = (sent0 + successBytes pre) % 2 ^ 64 ∧
    (sent0 + successBytes pre < 2 ^ 64 → (s.send sent0).sent = sent0 + successBytes pre) ∧
    (s.send sent0).cmds = [CLIENT_TERMINATE] ∧
    (s.send sent0).finished = true := by
  unfold stream.send
  rw [hs]
  obtain ⟨ha, hb, hc⟩ := sendLoop_counter pre last rest hpre hlast sent0 h0
  refine ⟨ha, ?_, hb, hc⟩
  intro hlt
  rw [ha, Nat.mod_eq_of_lt hlt]

/-- Witness of `send_counter`: a write of 2048 bytes, a would-block, a write of
1000 bytes, then the connection is closed for send; the counter goes from 5 to
3053. -/
theorem send_counter_witness :
    ((streamWith [{ n := 2048, err := none }, { n := 0, err := some GoError.ErrWouldBlock },
        { n := 1000, err := none }, { n := 0, err := some GoError.ErrClosedForSend }]).send 5).sent
      = 3053 ∧
    ((streamWith [{ n := 2048, err := none }, { n := 0, err := some GoError.ErrWouldBlock },
        { n := 1000, err := none }, { n := 0, err := some GoError.ErrClosedForSend }]).send 5).cmds
      = [CLIENT_TERMINATE] :=
  have h := send_counter
    (streamWith [{ n := 2048, err := none }, { n := 0, err := some GoError.ErrWouldBlock },
        { n := 1000, err := none }, { n := 0, err := some GoError.ErrClosedForSend }])
    [{ n := 2048, err := none }, { n := 0, err := some GoError.ErrWouldBlock },
        { n := 1000, err := none }]
    { n := 0, err := some GoError.ErrClosedForSend } [] 5 rfl (by decide) (by decide) (by decide)
  ⟨h.2.1 (by decide), h.2.2.1⟩

/-- C9 (counterexample): the counter starts at `2^64 - 1`, one write of 1 byte
succeeds, then the connection is closed for send; the counter ends at 0, not at
`2^64`. -/
theorem send_counter_wraps :
    ((streamWith [{ n := 1, err := none },
        { n := 0, err := some GoError.ErrClosedForSend }]).send 18446744073709551615).sent = 0 ∧
    18446744073709551615 + successBytes [{ n := 1, err := none }] = 18446744073709551616 ∧
    ((streamWith [{ n := 1, err := none },
        { n := 0, err := some GoError.ErrClosedForSend }]).send 18446744073709551615).sent ≠
      18446744073709551615 + successBytes [{ n := 1, err := none }] := by
  refine ⟨by decide, by decide, by decide⟩

theorem readLoop_oneByte (b : Byte) (rest : List ReadOutcome) :
    iperfClient.readLoop (oneByte b :: rest) = some (([b], none), rest) := by
  simp [iperfClient.readLoop, oneByte]

/-- C10 (amended): when the peer delivers valid control bytes one at a time,
the reader goroutine that `run` starts forwards the first of them to the
command channel and ends; the later bytes stay unread. -/
theorem runReader_forwards_first (c : iperfClient) (bytes : List Byte)
    (hvalid : ∀ b ∈ bytes, 1 ≤ b.val ∧ b.val ≤ 16)
    (hreads : c.ep.reads = bytes.map oneByte) :
    c.runReader.1 = (bytes.take 1).map toInt8 ∧
    c.runReader.2.ep.reads = (bytes.drop 1).map oneByte := by
  cases bytes with
  | nil =>
    simp only [List.map_nil] at hreads
    simp [iperfClient.runReader, iperfClient.readControlMessage, iperfClient.read, hreads,
      iperfClient.readLoop]
  | cons b bs =>
    simp only [List.map_cons] at hreads
    have hb := hvalid b (List.mem_cons_self _ _)
    have hle : ¬ toInt8 b > IPERF_DONE := by
      unfold toInt8
      rw [if_pos (by omega)]
      show ¬ (16 : Int) < (b.val : Int)
      omega
    simp [iperfClient.runReader, iperfClient.readControlMessage, iperfClient.read, hreads,
      readLoop_oneByte, hle]

/-- Witness of `runReader_forwards_first`: the peer delivers `TEST_RUNNING`
then `TEST_END`. -/
theorem runReader_forwards_first_witness :
    (clientWith [] [oneByte 2, oneByte 4]).runReader.1 = [TEST_RUNNING] ∧
    (clientWith [] [oneByte 2, oneByte 4]).runReader.2.ep.reads = [oneByte 4] :=
  runReader_forwards_first (clientWith [] [oneByte 2, oneByte 4]) [2, 4] (by decide) rfl

/-- C10 (counterexample): after the handshake the peer delivers
`TEST_RUNNING` then `TEST_END`; the reader forwards `TEST_RUNNING` only, the
command channel of `run` never receives `TEST_END` and its byte stays unread. -/
theorem runReader_stops_after_first :
    (clientWith [] [oneByte 2, oneByte 4]).runReader.1 = [TEST_RUNNING] ∧
    (clientWith [] [oneByte 2, oneByte 4]).runReader.1 ≠ [TEST_RUNNING, TEST_END] ∧
    chanLog (newIperfClient.run
      (stackWith (epReading [oneByte 9, oneByte 10, oneByte 1, oneByte 2, oneByte 4]))
      [10, 0, 0, 2] (Except.ok (bytesOf "{}"))).client.trace = [TEST_RUNNING] ∧
    (newIperfClient.run
      (stackWith (epReading [oneByte 9, oneByte 10, oneByte 1, oneByte 2, oneByte 4]))
      [10, 0, 0, 2] (Except.ok (bytesOf "{}"))).client.ep.reads = [oneByte 4] := by
  refine ⟨by decide, by decide, by decide, by decide⟩

theorem readControlMessage_trace (c : iperfClient) :
    (∃ c1, c.readControlMessage = Res.blocked c1 ∧ c1.trace = c.trace) ∨
    (∃ x e c1, c.readControlMessage = Res.ret (x, some e) c1 ∧ c1.trace = c.trace) ∨
    (∃ cmd c1, c.readControlMessage = Res.ret (cmd, none) c1 ∧
      c1.trace = c.trace ++ [Event.logControl cmd]) := by
  unfold iperfClient.readControlMessage iperfClient.read
  cases h : iperfClient.readLoop c.ep.reads with
  | none => left; exact ⟨_, rfl, rfl⟩
  | some p =>
    obtain ⟨⟨v, err⟩, rest⟩ := p
    simp only
    split
    · split
      · right; left; exact ⟨_, _, _, rfl, rfl⟩
      · right; right; exact ⟨_, _, rfl, rfl⟩
    · right; left; exact ⟨_, _, _, rfl, rfl⟩

theorem controlLog_append (a b : List Event) :
    controlLog (a ++ b) = controlLog a ++ controlLog b := by
  simp [controlLog]

theorem chanLog_append (a b : List Event) : chanLog (a ++ b) = chanLog a ++ chanLog b := by
  simp [chanLog]

theorem controlWrites_append (a b : List Event) :
    controlWrites (a ++ b) = controlWrites a ++ controlWrites b := by
  simp [controlWrites]

theorem controlLog_goSend (l : List Nat) : controlLog (l.map Event.goSend) = [] := by
  induction l with
  | nil => rfl
  | cons a l ih => simp [controlLog, Event.control?]

theorem chanLog_goSend (l : List Nat) : chanLog (l.map Event.goSend) = [] := by
  induction l with
  | nil => rfl
  | cons a l ih => simp [chanLog, Event.received?]

theorem sendJSON_trace (c : iperfClient) (d : Except GoError (List Byte)) :
    ∃ ws, (c.sendJSON d).2.trace = c.trace ++ ws ∧ controlLog ws = [] ∧ chanLog ws = [] ∧
      ws.filter Event.isGo = [] ∧ ws.filter Event.isStream = [] := by
  unfold iperfClient.sendJSON
  cases d with
  | error e => exact ⟨[], by simp, rfl, rfl, rfl, rfl⟩
  | ok b =>
    simp only
    split
    · exact ⟨[Event.write EpName.control (putUint32 b.length)], rfl, rfl, rfl, rfl, rfl⟩
    · split
      · exact ⟨[Event.write EpName.control (putUint32 b.length), Event.write EpName.control b],
          by simp, rfl, rfl, rfl, rfl⟩
      · exact ⟨[Event.write EpName.control (putUint32 b.length), Event.write EpName.control b],
          by simp, rfl, rfl, rfl, rfl⟩

theorem connectStream_trace (c : iperfClient) (num : Int) :
    ∃ evs, (c.connectStream num).client.trace = c.trace ++ evs ∧ controlLog evs = [] ∧
      chanLog evs = [] ∧ evs.filter Event.isGo = [] ∧ controlWrites evs = [] := by
  unfold iperfClient.connectStream
  simp only
  split
  · exact ⟨[Event.newEndpoint (EpName.stream num)], rfl, rfl, rfl, rfl, rfl⟩
  · split
    · exact ⟨[Event.newEndpoint (EpName.stream num), Event.connect (EpName.stream num) c.remote],
        by simp [Res.client], rfl, rfl, rfl, rfl⟩
    · exact ⟨[Event.newEndpoint (EpName.stream num), Event.connect (EpName.stream num) c.remote],
        by simp [Res.client], rfl, rfl, rfl, rfl⟩
    · split
      · exact ⟨[Event.newEndpoint (EpName.stream num),
          Event.connect (EpName.stream num) c.remote,
          Event.write (EpName.stream num) (bytesOf iperfCookie)],
          by simp [Res.client], rfl, rfl, rfl, rfl⟩
      · exact ⟨[Event.newEndpoint (EpName.stream num),
          Event.connect (EpName.stream num) c.remote,
          Event.write (EpName.stream num) (bytesOf iperfCookie)],
          by simp [Res.client], rfl, rfl, rfl, rfl⟩

theorem runLoop_trace (cmds : List state) :
    ∀ c : iperfClient, ∃ evs, (c.runLoop cmds).client.trace = c.trace ++ evs ∧
      controlLog evs = [] ∧
      ∀ v ∈ chanLog evs, v ≠ TEST_RUNNING →
        ∃ pre, (c.runLoop cmds).val? = some (some (GoError.other (pre ++ state.String v))) := by
  induction cmds with
  | nil =>
    intro c
    exact ⟨[], by simp [iperfClient.runLoop, Res.client], rfl, by simp [chanLog]⟩
  | cons cmd rest ih =>
    intro c
    unfold iperfClient.runLoop
    simp only
    split
    · rename_i hcmd
      obtain ⟨evs, h1, h2, h3⟩ := ih
        { c with trace := c.trace ++ [Event.chanRecv cmd] ++
            (List.range c.streams.length).map Event.goSend ++ [Event.goReport] }
      refine ⟨[Event.chanRecv cmd] ++ (List.range c.streams.length).map Event.goSend ++
        [Event.goReport] ++ evs, ?_, ?_, ?_⟩
      · rw [h1]; simp
      · rw [controlLog_append, controlLog_append, controlLog_append, controlLog_goSend, h2]
        rfl
      · intro v hv hne
        apply h3 v _ hne
        rw [chanLog_append, chanLog_append, chanLog_append, chanLog_goSend] at hv
        have h4 : chanLog [Event.chanRecv cmd] = [cmd] := rfl
        have h5 : chanLog [Event.goReport] = [] := rfl
        rw [h4, h5] at hv
        simp only [List.append_nil, List.singleton_append, List.mem_cons] at hv
        rcases hv with hv | hv
        · exact absurd (hv.trans hcmd) hne
        · exact hv
    · refine ⟨[Event.chanRecv cmd], rfl, rfl, ?_⟩
      intro v hv hne
      have h4 : chanLog [Event.chanRecv cmd] = [cmd] := rfl
      rw [h4] at hv
      simp only [List.mem_singleton] at hv
      subst hv
      exact ⟨_, rfl⟩

theorem readControlMessage_ret_none (c c1 : iperfClient) (cmd : state)
    (h : c.readControlMessage = Res.ret (cmd, none) c1) :
    c1.trace = c.trace ++ [Event.logControl cmd] := by
  rcases readControlMessage_trace c with ⟨c2, h2, _⟩ | ⟨x, e, c2, h2, _⟩ | ⟨cmd2, c2, h2, h3⟩
  · rw [h2] at h; cases h
  · rw [h2] at h; cases h
  · rw [h2] at h; cases h; exact h3

theorem readControlMessage_ret_some (c c1 : iperfClient) (x : state) (e : GoError)
    (h : c.readControlMessage = Res.ret (x, some e) c1) : c1.trace = c.trace := by
  rcases readControlMessage_trace c with ⟨c2, h2, _⟩ | ⟨x, e, c2, h2, h3⟩ | ⟨cmd2, c2, h2, _⟩
  · rw [h2] at h; cases h
  · rw [h2] at h; cases h; exact h3
  · rw [h2] at h; cases h

theorem readControlMessage_blocked (c c1 : iperfClient)
    (h : c.readControlMessage = Res.blocked c1) : c1.trace = c.trace := by
  rcases readControlMessage_trace c with ⟨c2, h2, h3⟩ | ⟨x, e, c2, h2, _⟩ | ⟨cmd2, c2, h2, _⟩
  · rw [h2] at h; cases h; exact h3
  · rw [h2] at h; cases h
  · rw [h2] at h; cases h

theorem runReader_trace (c : iperfClient) :
    ∃ evs, c.runReader.2.trace = c.trace ++ evs ∧ chanLog evs = [] := by
  unfold iperfClient.runReader
  rcases readControlMessage_trace c with ⟨c2, h2, h3⟩ | ⟨x, e, c2, h2, h3⟩ | ⟨cmd2, c2, h2, h3⟩
  · rw [h2]; exact ⟨[], by simp [h3], rfl⟩
  · rw [h2]; exact ⟨[], by simp [h3], rfl⟩
  · rw [h2]; exact ⟨[Event.logControl cmd2], h3, rfl⟩

theorem Endpoint.Write_reads (ep : Endpoint) : ep.Write.2.reads = ep.reads := by
  unfold Endpoint.Write
  split <;> rfl

theorem sendJSON_reads (c : iperfClient) (d : Except GoError (List Byte)) :
    (c.sendJSON d).2.ep.reads = c.ep.reads := by
  unfold iperfClient.sendJSON
  cases d with
  | error e => rfl
  | ok b =>
    simp only
    split
    · exact Endpoint.Write_reads _
    · split
      · exact (Endpoint.Write_reads _).trans (Endpoint.Write_reads _)
      · exact (Endpoint.Write_reads _).trans (Endpoint.Write_reads _)

theorem connectStream_ep (c : iperfClient) (num : Int) :
    (c.connectStream num).client.ep = c.ep := by
  unfold iperfClient.connectStream
  simp only
  split
  · rfl
  · split
    · rfl
    · rfl
    · split <;> rfl

theorem readControlMessage_ret_none_script (c c1 : iperfClient) (cmd : state)
    (h : c.readControlMessage = Res.ret (cmd, none) c1) :
    ∃ b, delivers c.ep.reads b c1.ep.reads ∧ cmd = toInt8 b := by
  unfold iperfClient.readControlMessage iperfClient.read at h
  unfold delivers
  cases hl : iperfClient.readLoop c.ep.reads with
  | none => rw [hl] at h; cases h
  | some p =>
    obtain ⟨⟨v, err⟩, rest⟩ := p
    rw [hl] at h
    simp only at h
    split at h
    · rename_i b
      split at h
      · cases h
      · cases h
        exact ⟨b, rfl, rfl⟩
    · cases h

theorem toInt8_eq_9 (b : Byte) (h : toInt8 b = PARAM_EXCHANGE) : b = 9 := by
  unfold toInt8 at h
  have hb := b.isLt
  split at h
  · have h1 : (b.val : Int) = 9 := h
    exact Fin.ext (by show b.val = 9; omega)
  · have h1 : (b.val : Int) - 256 = 9 := h
    omega

theorem toInt8_eq_10 (b : Byte) (h : toInt8 b = CREATE_STREAMS) : b = 10 := by
  unfold toInt8 at h
  have hb := b.isLt
  split at h
  · have h1 : (b.val : Int) = 10 := h
    exact Fin.ext (by show b.val = 10; omega)
  · have h1 : (b.val : Int) - 256 = 10 := h
    omega

theorem toInt8_eq_1 (b : Byte) (h : toInt8 b = TEST_START) : b = 1 := by
  unfold toInt8 at h
  have hb := b.isLt
  split at h
  · have h1 : (b.val : Int) = 1 := h
    exact Fin.ext (by show b.val = 1; omega)
  · have h1 : (b.val : Int) - 256 = 1 := h
    omega

theorem run_outcome (s : Stack) (remoteAddr : List Byte)
    (paramsDoc : Except GoError (List Byte)) :
    HandshakeOutcome s (newIperfClient.run s remoteAddr paramsDoc) := by
  unfold iperfClient.run
  simp only []
  split
  · exact Or.inl ⟨0, by omega, rfl, rfl, rfl⟩
  · rename_i x0 ep hep
    have hep1 : s.newEndpoint s.created = Except.ok ep := hep
    split
    · exact Or.inl ⟨0, by omega, rfl, rfl, rfl⟩
    · exact Or.inl ⟨0, by omega, rfl, rfl, rfl⟩
    · split
      · exact Or.inl ⟨0, by omega, rfl, rfl, rfl⟩
      · split
        · rename_i c3 h3
          have t3 := readControlMessage_blocked _ _ h3
          exact Or.inl ⟨0, by omega, by simp only [Res.client]; rw [t3]; rfl,
            by simp only [Res.client]; rw [t3]; rfl, by simp only [Res.client]; rw [t3]; rfl⟩
        · rename_i x1 e1 c3 h3
          have t3 := readControlMessage_ret_some _ _ _ _ h3
          exact Or.inl ⟨0, by omega, by simp only [Res.client]; rw [t3]; rfl,
            by simp only [Res.client]; rw [t3]; rfl, by simp only [Res.client]; rw [t3]; rfl⟩
        · rename_i cmd1 c3 h3
          have t3 := readControlMessage_ret_none _ _ _ h3
          have a3 : controlLog c3.trace = [cmd1] := by rw [t3]; rfl
          have g3 : c3.trace.filter Event.isGo = [] := by rw [t3]; rfl
          have r3 : chanLog c3.trace = [] := by rw [t3]; rfl
          have s3 : c3.trace.filter Event.isStream = [] := by rw [t3]; rfl
          have w3 : controlWrites c3.trace = [bytesOf iperfCookie] := by rw [t3]; rfl
          obtain ⟨b1, hb1, hc1⟩ := readControlMessage_ret_none_script _ _ _ h3
          simp only [Endpoint.Write_reads] at hb1
          split
          · rename_i hne1
            exact Or.inr (Or.inl ⟨0, cmd1, PARAM_EXCHANGE,
              "iperf: expected PARAM_EXCHANGE, got: ", rfl, hne1, a3, rfl, g3, r3,
              fun _ => s3, fun _ => w3⟩)
          · rename_i hn1
            have e1 : cmd1 = PARAM_EXCHANGE := not_not.mp hn1
            obtain ⟨ws, hws, aw, rw4, gw, sw⟩ := sendJSON_trace c3 paramsDoc
            split
            · rename_i err4 c4 h4
              rw [h4] at hws
              simp only at hws
              refine Or.inl ⟨1, by omega, ?_, ?_, ?_⟩
              · simp only [Res.client]; rw [hws, controlLog_append, a3, aw, e1]; rfl
              · simp only [Res.client]; rw [hws, List.filter_append, g3, gw]; rfl
              · simp only [Res.client]; rw [hws, chanLog_append, r3, rw4]; rfl
            · rename_i c4 h4
              rw [h4] at hws
              simp only at hws
              have a4 : controlLog c4.trace = [PARAM_EXCHANGE] := by
                rw [hws, controlLog_append, a3, aw, e1]; rfl
              have g4 : c4.trace.filter Event.isGo = [] := by
                rw [hws, List.filter_append, g3, gw]; rfl
              have r4 : chanLog c4.trace = [] := by rw [hws, chanLog_append, r3, rw4]; rfl
              have s4 : c4.trace.filter Event.isStream = [] := by
                rw [hws, List.filter_append, s3, sw]; rfl
              have q4 : c4.ep.reads = c3.ep.reads := by
                have := sendJSON_reads c3 paramsDoc
                rw [h4] at this
                exact this
              split
              · rename_i c5 h5
                have t5 := readControlMessage_blocked _ _ h5
                refine Or.inl ⟨1, by omega, ?_, ?_, ?_⟩
                · simp only [Res.client]; rw [t5, a4]; rfl
                · simp only [Res.client]; rw [t5, g4]
                · simp only [Res.client]; rw [t5, r4]
              · rename_i x5 e5 c5 h5
                have t5 := readControlMessage_ret_some _ _ _ _ h5
                refine Or.inl ⟨1, by omega, ?_, ?_, ?_⟩
                · simp only [Res.client]; rw [t5, a4]; rfl
                · simp only [Res.client]; rw [t5, g4]
                · simp only [Res.client]; rw [t5, r4]
              · rename_i cmd2 c5 h5
                have t5 := readControlMessage_ret_none _ _ _ h5
                have a5 : controlLog c5.trace = [PARAM_EXCHANGE, cmd2] := by
                  rw [t5, controlLog_append, a4]; rfl
                have g5 : c5.trace.filter Event.isGo = [] := by
                  rw [t5, List.filter_append, g4]; rfl
                have r5 : chanLog c5.trace = [] := by rw [t5, chanLog_append, r4]; rfl
                have s5 : c5.trace.filter Event.isStream = [] := by
                  rw [t5, List.filter_append, s4]; rfl
                obtain ⟨b2, hb2, hc2⟩ := readControlMessage_ret_none_script _ _ _ h5
                rw [q4] at hb2
                split
                · rename_i hne2
                  exact Or.inr (Or.inl ⟨1, cmd2, CREATE_STREAMS,
                    "iperf: expected CREATE_STREAMS, got: ", rfl, hne2, a5, rfl, g5, r5,
                    fun _ => s5, fun h => absurd h (by omega)⟩)
                · rename_i hn2
                  have e2 : cmd2 = CREATE_STREAMS := not_not.mp hn2
                  obtain ⟨evs, hevs, ae, re, ge, _⟩ := connectStream_trace c5 0
                  split
                  · rename_i c6 h6
                    rw [h6] at hevs
                    simp only [Res.client] at hevs
                    refine Or.inl ⟨2, by omega, ?_, ?_, ?_⟩
                    · simp only [Res.client]; rw [hevs, controlLog_append, a5, ae, e2]; rfl
                    · simp only [Res.client]; rw [hevs, List.filter_append, g5, ge]; rfl
                    · simp only [Res.client]; rw [hevs, chanLog_append, r5, re]; rfl
                  · rename_i err6 c6 h6
                    rw [h6] at hevs
                    simp only [Res.client] at hevs
                    refine Or.inl ⟨2, by omega, ?_, ?_, ?_⟩
                    · simp only [Res.client]; rw [hevs, controlLog_append, a5, ae, e2]; rfl
                    · simp only [Res.client]; rw [hevs, List.filter_append, g5, ge]; rfl
                    · simp only [Res.client]; rw [hevs, chanLog_append, r5, re]; rfl
                  · rename_i strm c6 h6
                    rw [h6] at hevs
                    simp only [Res.client] at hevs
                    have a6 : controlLog c6.trace = [PARAM_EXCHANGE, CREATE_STREAMS] := by
                      rw [hevs, controlLog_append, a5, ae, e2]; rfl
                    have g6 : c6.trace.filter Event.isGo = [] := by
                      rw [hevs, List.filter_append, g5, ge]; rfl
                    have r6 : chanLog c6.trace = [] := by
                      rw [hevs, chanLog_append, r5, re]; rfl
                    have q6 : c6.ep = c5.ep := by
                      have := connectStream_ep c5 0
                      rw [h6] at this
                      exact this
                    split
                    · rename_i c8 h8
                      have t8 := readControlMessage_blocked _ _ h8
                      simp only at t8
                      refine Or.inl ⟨2, by omega, ?_, ?_, ?_⟩
                      · simp only [Res.client]; rw [t8, a6]; rfl
                      · simp only [Res.client]; rw [t8, g6]
                      · simp only [Res.client]; rw [t8, r6]
                    · rename_i x8 e8 c8 h8
                      have t8 := readControlMessage_ret_some _ _ _ _ h8
                      simp only at t8
                      refine Or.inl ⟨2, by omega, ?_, ?_, ?_⟩
                      · simp only [Res.client]; rw [t8, a6]; rfl
                      · simp only [Res.client]; rw [t8, g6]
                      · simp only [Res.client]; rw [t8, r6]
                    · rename_i cmd3 c8 h8
                      have t8 := readControlMessage_ret_none _ _ _ h8
                      simp only at t8
                      have a8 : controlLog c8.trace = [PARAM_EXCHANGE, CREATE_STREAMS, cmd3] := by
                        rw [t8, controlLog_append, a6]; rfl
                      have g8 : c8.trace.filter Event.isGo = [] := by
                        rw [t8, List.filter_append, g6]; rfl
                      have r8 : chanLog c8.trace = [] := by rw [t8, chanLog_append, r6]; rfl
                      obtain ⟨b3, hb3, hc3⟩ := readControlMessage_ret_none_script _ _ _ h8
                      simp only [q6] at hb3
                      split
                      · rename_i hne3
                        exact Or.inr (Or.inl ⟨2, cmd3, TEST_START,
                          "iperf: expected TEST_START, got: ", rfl, hne3, a8, rfl, g8, r8,
                          fun h => absurd h (by omega), fun h => absurd h (by omega)⟩)
                      · rename_i hn3
                        have e3 : cmd3 = TEST_START := not_not.mp hn3
                        obtain ⟨ev1, h1, q1⟩ := runReader_trace
                          { c8 with trace := c8.trace ++ [Event.goReader] }
                        obtain ⟨ev2, h2, p2, q2⟩ := runLoop_trace
                          (delivered
                            ({ c8 with trace := c8.trace ++ [Event.goReader] }.runReader.1)
                            ({ c8 with trace := c8.trace ++ [Event.goReader] }.runReader.2.streams))
                          ({ c8 with trace := c8.trace ++ [Event.goReader] }.runReader.2)
                        simp only at h1
                        have k1 : b1 = 9 := toInt8_eq_9 b1 (hc1.symm.trans e1)
                        have k2 : b2 = 10 := toInt8_eq_10 b2 (hc2.symm.trans e2)
                        have k3 : b3 = 1 := toInt8_eq_1 b3 (hc3.symm.trans e3)
                        subst k1 k2 k3
                        refine Or.inr (Or.inr ⟨⟨ep, c3.ep.reads, c5.ep.reads, c8.ep.reads,
                          hep1, hb1, hb2, hb3⟩, controlLog ev1, ?_, ?_⟩)
                        · rw [h2, h1, controlLog_append, controlLog_append, controlLog_append,
                            a8, p2, e3]
                          have hg : controlLog [Event.goReader] = [] := rfl
                          rw [hg]
                          simp [expected]
                        · intro v hv hne
                          apply q2 v _ hne
                          rw [h2, h1, chanLog_append, chanLog_append, chanLog_append, r8, q1] at hv
                          have hg : chanLog [Event.goReader] = [] := rfl
                          rw [hg] at hv
                          simpa using hv


theorem readControlMessage_mk (st : Stack) (remote : FullAddress) (cn : Option GoError)
    (nt : Bool) (se : Option GoError) (ws : List WriteOutcome) (reads : List ReadOutcome)
    (streams : List stream) (trace : List Event) (b : Byte) (rest : List ReadOutcome)
    (h : delivers reads b rest) :
    iperfClient.readControlMessage
      { s := st, remote := remote,
        ep := { connect := cn, notified := nt, sockErr := se, writes := ws, reads := reads },
        streams := streams, trace := trace } =
      if toInt8 b > IPERF_DONE then
        Res.ret (SERVER_ERROR,
          some (GoError.other ("iperf: unknown control message: " ++ toString (toInt8 b))))
          { s := st, remote := remote,
            ep := { connect := cn, notified := nt, sockErr := se, writes := ws, reads := rest },
            streams := streams, trace := trace }
      else
        Res.ret (toInt8 b, none)
          { s := st, remote := remote,
            ep := { connect := cn, notified := nt, sockErr := se, writes := ws, reads := rest },
            streams := streams, trace := trace ++ [Event.logControl (toInt8 b)] } := by
  unfold delivers at h
  simp only [iperfClient.readControlMessage, iperfClient.read, h]

theorem sendJSON_mk (st : Stack) (remote : FullAddress) (cn : Option GoError)
    (nt : Bool) (se : Option GoError) (n1 n2 : Nat) (ws : List WriteOutcome)
    (reads : List ReadOutcome) (streams : List stream) (trace : List Event) (d : List Byte) :
    iperfClient.sendJSON
      { s := st, remote := remote,
        ep := { connect := cn, notified := nt, sockErr := se,
                writes := { n := n1, err := none } :: { n := n2, err := none } :: ws,
                reads := reads },
        streams := streams, trace := trace } (Except.ok d) =
      (none,
        { s := st, remote := remote,
          ep := { connect := cn, notified := nt, sockErr := se, writes := ws, reads := reads },
          streams := streams,
          trace := trace ++ [Event.write EpName.control (putUint32 d.length)] ++
            [Event.write EpName.control d] }) := by
  simp only [iperfClient.sendJSON, Endpoint.Write]

theorem connectStream_mk (f : Nat → Except GoError Endpoint) (k : Nat) (remote : FullAddress)
    (ep : Endpoint) (streams : List stream) (trace : List Event) (num : Int)
    (ep2 : Endpoint) (n : Nat) (ws2 : List WriteOutcome)
    (h1 : f k = Except.ok ep2) (h2 : connectWait ep2 = some none)
    (h3 : ep2.writes = { n := n, err := none } :: ws2) :
    iperfClient.connectStream
      { s := { newEndpoint := f, created := k }, remote := remote, ep := ep,
        streams := streams, trace := trace } num =
      Res.ret (Except.ok { ep := { ep2 with writes := ws2 } })
        { s := { newEndpoint := f, created := k + 1 }, remote := remote, ep := ep,
          streams := streams,
          trace := trace ++ [Event.newEndpoint (EpName.stream num)] ++
            [Event.connect (EpName.stream num) remote] ++
            [Event.write (EpName.stream num) (bytesOf iperfCookie)] } := by
  simp only [iperfClient.connectStream, Stack.NewEndpoint, h1, h2, Endpoint.Write, h3]

theorem containsText_append (pre name : String) : containsText (pre ++ name) name := by
  show name.data <:+: (pre ++ name).data
  rw [String.data_append]
  exact (List.suffix_append _ _).isInfix

theorem run_refuses_first (s : Stack) (remoteAddr : List Byte)
    (paramsDoc : Except GoError (List Byte))
    (ep : Endpoint) (ws : List WriteOutcome) (b : Byte) (rest : List ReadOutcome)
    (hup : cookieSent s ep ws) (hd : delivers ep.reads b rest)
    (hne : toInt8 b ≠ PARAM_EXCHANGE) :
    refused (newIperfClient.run s remoteAddr paramsDoc)
      "iperf: expected PARAM_EXCHANGE, got: " b (traceCookie remoteAddr) := by
  obtain ⟨h1, h2, n, h3⟩ := hup
  unfold refused
  simp only [iperfClient.run, Stack.NewEndpoint, Endpoint.Write, h1, h2, h3]
  rw [readControlMessage_mk _ _ _ _ _ _ _ _ _ b rest hd]
  constructor
  · intro hg
    simp only [hg, if_false, hne, ne_eq, not_false_eq_true, if_true]
    exact ⟨rfl, containsText_append _ _, rfl⟩
  · intro hg
    simp only [hg, if_true]
    exact ⟨rfl, rfl⟩

theorem toInt8_9 : toInt8 9 = PARAM_EXCHANGE := by decide

theorem toInt8_10 : toInt8 10 = CREATE_STREAMS := by decide

theorem toInt8_1 : toInt8 1 = TEST_START := by decide

theorem run_refuses_second (s : Stack) (remoteAddr : List Byte)
    (paramsDoc : Except GoError (List Byte))
    (ep : Endpoint) (ws ws1 : List WriteOutcome) (d : List Byte) (b : Byte)
    (rest1 rest2 : List ReadOutcome)
    (hup : cookieSent s ep ws) (hd1 : delivers ep.reads 9 rest1)
    (hps : paramsSent paramsDoc d ws ws1) (hd2 : delivers rest1 b rest2)
    (hne : toInt8 b ≠ CREATE_STREAMS) :
    refused (newIperfClient.run s remoteAddr paramsDoc)
      "iperf: expected CREATE_STREAMS, got: " b (traceParams remoteAddr d) := by
  obtain ⟨h1, h2, n, h3⟩ := hup
  obtain ⟨hdoc, n1, n2, hws⟩ := hps
  subst hdoc hws
  unfold refused
  simp only [iperfClient.run, Stack.NewEndpoint, Endpoint.Write, h1, h2, h3]
  rw [readControlMessage_mk _ _ _ _ _ _ _ _ _ 9 rest1 hd1]
  simp only [toInt8_9, gt_iff_lt, show ¬ ((16 : Int) < 9) by decide, if_false, ne_eq,
    not_true_eq_false, sendJSON_mk]
  rw [readControlMessage_mk _ _ _ _ _ _ _ _ _ b rest2 hd2]
  constructor
  · intro hg
    have hg1 : ¬ (16 : Int) < toInt8 b := hg
    simp only [hg1, if_false, hne, ne_eq, not_false_eq_true, if_true]
    exact ⟨rfl, containsText_append _ _, rfl⟩
  · intro hg
    have hg1 : (16 : Int) < toInt8 b := hg
    simp only [hg1, if_true]
    exact ⟨rfl, rfl⟩

theorem run_refuses_third (s : Stack) (remoteAddr : List Byte)
    (paramsDoc : Except GoError (List Byte))
    (ep ep2 : Endpoint) (ws ws1 ws2 : List WriteOutcome) (d : List Byte) (b : Byte)
    (rest1 rest2 rest3 : List ReadOutcome)
    (hup : cookieSent s ep ws) (hd1 : delivers ep.reads 9 rest1)
    (hps : paramsSent paramsDoc d ws ws1) (hd2 : delivers rest1 10 rest2)
    (hso : streamOpened s ep2 ws2) (hd3 : delivers rest2 b rest3)
    (hne : toInt8 b ≠ TEST_START) :
    refused (newIperfClient.run s remoteAddr paramsDoc)
      "iperf: expected TEST_START, got: " b (traceStream remoteAddr d) := by
  obtain ⟨h1, h2, n, h3⟩ := hup
  obtain ⟨hdoc, n1, n2, hws⟩ := hps
  obtain ⟨g1, g2, m, g3⟩ := hso
  subst hdoc hws
  unfold refused
  simp only [iperfClient.run, Stack.NewEndpoint, Endpoint.Write, h1, h2, h3]
  rw [readControlMessage_mk _ _ _ _ _ _ _ _ _ 9 rest1 hd1]
  simp only [toInt8_9, gt_iff_lt, show ¬ ((16 : Int) < 9) by decide, if_false, ne_eq,
    not_true_eq_false, sendJSON_mk]
  rw [readControlMessage_mk _ _ _ _ _ _ _ _ _ 10 rest2 hd2]
  simp only [toInt8_10, gt_iff_lt, show ¬ ((16 : Int) < 10) by decide, if_false, ne_eq,
    not_true_eq_false]
  rw [connectStream_mk _ _ _ _ _ _ _ ep2 m ws2 g1 g2 g3]
  simp only []
  rw [readControlMessage_mk _ _ _ _ _ _ _ _ _ b rest3 hd3]
  constructor
  · intro hg
    have hg1 : ¬ (16 : Int) < toInt8 b := hg
    simp only [hg1, if_false, hne, ne_eq, not_false_eq_true, if_true]
    exact ⟨rfl, containsText_append _ _, rfl⟩
  · intro hg
    have hg1 : (16 : Int) < toInt8 b := hg
    simp only [hg1, if_true]
    exact ⟨rfl, rfl⟩

theorem run_loop_fourth (s : Stack) (remoteAddr : List Byte)
    (paramsDoc : Except GoError (List Byte)) (d : List Byte) (ws2 : List WriteOutcome)
    (rest3 rest4 : List ReadOutcome) (b : Byte)
    (hdone : handshakeDone s paramsDoc d ws2 rest3) (hd4 : delivers rest3 b rest4)
    (hacc : ¬ toInt8 b > IPERF_DONE) (hne : toInt8 b ≠ TEST_RUNNING) :
    (newIperfClient.run s remoteAddr paramsDoc).val? =
      some (some (GoError.other
        ("iperf: got control message: " ++ state.String (toInt8 b)))) ∧
    (newIperfClient.run s remoteAddr paramsDoc).client.trace =
      traceStream remoteAddr d ++
        [Event.logControl TEST_START, Event.goReader, Event.logControl (toInt8 b),
         Event.chanRecv (toInt8 b)] := by
  obtain ⟨ep, ws, ws1, ep2, rest1, rest2, hup, hd1, hps, hd2, hso, hd3⟩ := hdone
  obtain ⟨h1, h2, n, h3⟩ := hup
  obtain ⟨hdoc, n1, n2, hws⟩ := hps
  obtain ⟨g1, g2, m, g3⟩ := hso
  subst hdoc hws
  simp only [iperfClient.run, Stack.NewEndpoint, Endpoint.Write, h1, h2, h3]
  rw [readControlMessage_mk _ _ _ _ _ _ _ _ _ 9 rest1 hd1]
  simp only [toInt8_9, gt_iff_lt, show ¬ ((16 : Int) < 9) by decide, if_false, ne_eq,
    not_true_eq_false, sendJSON_mk]
  rw [readControlMessage_mk _ _ _ _ _ _ _ _ _ 10 rest2 hd2]
  simp only [toInt8_10, gt_iff_lt, show ¬ ((16 : Int) < 10) by decide, if_false, ne_eq,
    not_true_eq_false]
  rw [connectStream_mk _ _ _ _ _ _ _ ep2 m ws2 g1 g2 g3]
  simp only []
  rw [readControlMessage_mk _ _ _ _ _ _ _ _ _ 1 rest3 hd3]
  simp only [toInt8_1, gt_iff_lt, show ¬ ((16 : Int) < 1) by decide, if_false, ne_eq,
    not_true_eq_false, iperfClient.runReader]
  rw [readControlMessage_mk _ _ _ _ _ _ _ _ _ b rest4 hd4]
  have hg1 : ¬ (16 : Int) < toInt8 b := hacc
  simp only [gt_iff_lt, hg1, if_false, delivered, hne, iperfClient.runLoop]
  exact ⟨rfl, rfl⟩

theorem toInt8_2 : toInt8 2 = TEST_RUNNING := by decide

theorem run_loop_worker (s : Stack) (remoteAddr : List Byte)
    (paramsDoc : Except GoError (List Byte)) (d : List Byte)
    (pre : List WriteOutcome) (last : WriteOutcome) (tail : List WriteOutcome)
    (rest3 rest4 : List ReadOutcome)
    (hdone : handshakeDone s paramsDoc d (pre ++ last :: tail) rest3)
    (hd4 : delivers rest3 2 rest4)
    (hpre : ∀ o ∈ pre, o.err = none ∨ o.err = some GoError.ErrWouldBlock)
    (hlast : last.err ≠ none ∧ last.err ≠ some GoError.ErrWouldBlock) :
    (newIperfClient.run s remoteAddr paramsDoc).val? =
      some (some (GoError.other
        ("iperf: got control message: " ++ state.String CLIENT_TERMINATE))) ∧
    (newIperfClient.run s remoteAddr paramsDoc).client.trace =
      traceStream remoteAddr d ++
        [Event.logControl TEST_START, Event.goReader, Event.logControl TEST_RUNNING,
         Event.chanRecv TEST_RUNNING, Event.goSend 0, Event.goReport,
         Event.chanRecv CLIENT_TERMINATE] := by
  obtain ⟨ep, ws, ws1, ep2, rest1, rest2, hup, hd1, hps, hd2, hso, hd3⟩ := hdone
  obtain ⟨h1, h2, n, h3⟩ := hup
  obtain ⟨hdoc, n1, n2, hws⟩ := hps
  obtain ⟨g1, g2, m, g3⟩ := hso
  subst hdoc hws
  have hcmds := (sendLoop_counter pre last tail hpre hlast 0 (by norm_num)).2.1
  simp only [iperfClient.run, Stack.NewEndpoint, Endpoint.Write, h1, h2, h3]
  rw [readControlMessage_mk _ _ _ _ _ _ _ _ _ 9 rest1 hd1]
  simp only [toInt8_9, gt_iff_lt, show ¬ ((16 : Int) < 9) by decide, if_false, ne_eq,
    not_true_eq_false, sendJSON_mk]
  rw [readControlMessage_mk _ _ _ _ _ _ _ _ _ 10 rest2 hd2]
  simp only [toInt8_10, gt_iff_lt, show ¬ ((16 : Int) < 10) by decide, if_false, ne_eq,
    not_true_eq_false]
  rw [connectStream_mk _ _ _ _ _ _ _ ep2 m (pre ++ last :: tail) g1 g2 g3]
  simp only []
  rw [readControlMessage_mk _ _ _ _ _ _ _ _ _ 1 rest3 hd3]
  simp only [toInt8_1, gt_iff_lt, show ¬ ((16 : Int) < 1) by decide, if_false, ne_eq,
    not_true_eq_false, iperfClient.runReader]
  rw [readControlMessage_mk _ _ _ _ _ _ _ _ _ 2 rest4 hd4]
  simp only [toInt8_2, gt_iff_lt, show ¬ ((16 : Int) < 2) by decide, if_false, delivered,
    if_true, stream.send, newIperfClient, List.nil_append, List.map_cons, List.map_nil, hcmds,
    List.flatten, List.append_nil, iperfClient.runLoop,
    show ¬ (CLIENT_TERMINATE = TEST_RUNNING) by decide, List.length_singleton]
  refine ⟨rfl, ?_⟩
  simp [Res.client, traceStream, traceParams, traceCookie, List.range_succ]

theorem filter_isGo_ne_nil (t : List Event) (h : Event.goReader ∈ t) :
    t.filter Event.isGo ≠ [] := by
  intro hf
  have hm : Event.goReader ∈ t.filter Event.isGo := List.mem_filter.mpr ⟨h, rfl⟩
  rw [hf] at hm
  exact absurd hm (List.not_mem_nil _)

/-- C2 (amended): for every script of the peer, `run` on a fresh client gets
past the handshake (starts the reader goroutine) only if the control
connection delivers, in this order, the bytes of `PARAM_EXCHANGE`,
`CREATE_STREAMS`, `TEST_START`.  If the first, second or third control message
that `run` receives is a byte whose state differs from the expected one, then:
when `readControlMessage` accepts the byte (its `int8` value is at most
`IPERF_DONE`), `run` returns the error `iperf: expected ..., got: ` followed by
the `String()` name of the received state; when the byte is one the decoder
refuses (17 to 127), `run` returns the decoder's error
`iperf: unknown control message: ` followed by the decimal value; in both cases
the effects of `run` end there (no parameter document after a wrong first
message, no stream after a wrong first or second one, no goroutine).  In the
loop every value received from the command channel other than `TEST_RUNNING`
makes `run` return an error naming that value: so does a fourth control
message that the decoder accepts, and so does the `CLIENT_TERMINATE` of the
stream worker after `TEST_RUNNING`. -/
theorem run_handshake (s : Stack) (remoteAddr : List Byte)
    (paramsDoc : Except GoError (List Byte)) :
    (Event.goReader ∈ (newIperfClient.run s remoteAddr paramsDoc).client.trace →
      ∃ ep rest1 rest2 rest3, s.newEndpoint s.created = Except.ok ep ∧
        delivers ep.reads 9 rest1 ∧ delivers rest1 10 rest2 ∧ delivers rest2 1 rest3) ∧
    (∀ (ep : Endpoint) (ws : List WriteOutcome) (b : Byte) (rest : List ReadOutcome),
      cookieSent s ep ws → delivers ep.reads b rest → toInt8 b ≠ PARAM_EXCHANGE →
      refused (newIperfClient.run s remoteAddr paramsDoc)
        "iperf: expected PARAM_EXCHANGE, got: " b (traceCookie remoteAddr)) ∧
    (∀ (ep : Endpoint) (ws ws1 : List WriteOutcome) (d : List Byte) (b : Byte)
      (rest1 rest2 : List ReadOutcome),
      cookieSent s ep ws → delivers ep.reads 9 rest1 → paramsSent paramsDoc d ws ws1 →
      delivers rest1 b rest2 → toInt8 b ≠ CREATE_STREAMS →
      refused (newIperfClient.run s remoteAddr paramsDoc)
        "iperf: expected CREATE_STREAMS, got: " b (traceParams remoteAddr d)) ∧
    (∀ (ep ep2 : Endpoint) (ws ws1 ws2 : List WriteOutcome) (d : List Byte) (b : Byte)
      (rest1 rest2 rest3 : List ReadOutcome),
      cookieSent s ep ws → delivers ep.reads 9 rest1 → paramsSent paramsDoc d ws ws1 →
      delivers rest1 10 rest2 → streamOpened s ep2 ws2 → delivers rest2 b rest3 →
      toInt8 b ≠ TEST_START →
      refused (newIperfClient.run s remoteAddr paramsDoc)
        "iperf: expected TEST_START, got: " b (traceStream remoteAddr d)) ∧
    (∀ v ∈ chanLog (newIperfClient.run s remoteAddr paramsDoc).client.trace,
      v ≠ TEST_RUNNING →
      ∃ pre, (newIperfClient.run s remoteAddr paramsDoc).val? =
        some (some (GoError.other (pre ++ state.String v)))) ∧
    (∀ (d : List Byte) (ws2 : List WriteOutcome) (rest3 rest4 : List ReadOutcome) (b : Byte),
      handshakeDone s paramsDoc d ws2 rest3 → delivers rest3 b rest4 →
      ¬ toInt8 b > IPERF_DONE → toInt8 b ≠ TEST_RUNNING →
      (newIperfClient.run s remoteAddr paramsDoc).val? =
        some (some (GoError.other
          ("iperf: got control message: " ++ state.String (toInt8 b)))) ∧
      (newIperfClient.run s remoteAddr paramsDoc).client.trace =
        traceStream remoteAddr d ++
          [Event.logControl TEST_START, Event.goReader, Event.logControl (toInt8 b),
           Event.chanRecv (toInt8 b)]) ∧
    (∀ (d : List Byte) (pre : List WriteOutcome) (last : WriteOutcome)
      (tail : List WriteOutcome) (rest3 rest4 : List ReadOutcome),
      handshakeDone s paramsDoc d (pre ++ last :: tail) rest3 → delivers rest3 2 rest4 →
      (∀ o ∈ pre, o.err = none ∨ o.err = some GoError.ErrWouldBlock) →
      (last.err ≠ none ∧ last.err ≠ some GoError.ErrWouldBlock) →
      (newIperfClient.run s remoteAddr paramsDoc).val? =
        some (some (GoError.other
          ("iperf: got control message: " ++ state.String CLIENT_TERMINATE))) ∧
      (newIperfClient.run s remoteAddr paramsDoc).client.trace =
        traceStream remoteAddr d ++
          [Event.logControl TEST_START, Event.goReader, Event.logControl TEST_RUNNING,
           Event.chanRecv TEST_RUNNING, Event.goSend 0, Event.goReport,
           Event.chanRecv CLIENT_TERMINATE]) := by
  refine ⟨?_, ?_, ?_, ?_, ?_, ?_, ?_⟩
  · intro hgo
    rcases run_outcome s remoteAddr paramsDoc with ⟨j, _, _, hg, _⟩ |
      ⟨j, cmd0, exp0, pre, _, _, _, _, hg, _⟩ | ⟨hscript, _⟩
    · exact absurd hg (filter_isGo_ne_nil _ hgo)
    · exact absurd hg (filter_isGo_ne_nil _ hgo)
    · exact hscript
  · intro ep ws b rest hup hd hne
    exact run_refuses_first s remoteAddr paramsDoc ep ws b rest hup hd hne
  · intro ep ws ws1 d b rest1 rest2 hup hd1 hps hd2 hne
    exact run_refuses_second s remoteAddr paramsDoc ep ws ws1 d b rest1 rest2 hup hd1 hps hd2 hne
  · intro ep ep2 ws ws1 ws2 d b rest1 rest2 rest3 hup hd1 hps hd2 hso hd3 hne
    exact run_refuses_third s remoteAddr paramsDoc ep ep2 ws ws1 ws2 d b rest1 rest2 rest3
      hup hd1 hps hd2 hso hd3 hne
  · intro v hv hne
    rcases run_outcome s remoteAddr paramsDoc with ⟨j, _, _, _, hr⟩ |
      ⟨j, cmd0, exp0, pre, _, _, _, _, _, hr, _⟩ | ⟨_, more, _, hloop⟩
    · rw [hr] at hv
      exact absurd hv (List.not_mem_nil _)
    · rw [hr] at hv
      exact absurd hv (List.not_mem_nil _)
    · exact hloop v hv hne
  · intro d ws2 rest3 rest4 b hdone hd4 hacc hne
    exact run_loop_fourth s remoteAddr paramsDoc d ws2 rest3 rest4 b hdone hd4 hacc hne
  · intro d pre last tail rest3 rest4 hdone hd4 hpre hlast
    exact run_loop_worker s remoteAddr paramsDoc d pre last tail rest3 rest4 hdone hd4 hpre hlast

/-- Witness of `run_handshake`: a peer that sends `PARAM_EXCHANGE`,
`CREATE_STREAMS`, `TEST_START`, `TEST_RUNNING` (the reader goroutine is
started); peers that send `TEST_END` as the first, the second and the third
message; a peer that sends the byte 17 first; a peer that sends `TEST_END`
after the handshake; and a stream connection that is closed for send after
`TEST_RUNNING`. -/
theorem run_handshake_witness :
    (∃ ep rest1 rest2 rest3,
      (stackWith (epReading [oneByte 9, oneByte 10, oneByte 1, oneByte 2])).newEndpoint
        (stackWith (epReading [oneByte 9, oneByte 10, oneByte 1, oneByte 2])).created = Except.ok ep ∧
      delivers ep.reads 9 rest1 ∧ delivers rest1 10 rest2 ∧ delivers rest2 1 rest3) ∧
    ((newIperfClient.run (stackWith (epReading [oneByte 4])) [10, 0, 0, 2] (Except.ok (bytesOf "{}"))).val? =
        some (some (GoError.other
          ("iperf: expected PARAM_EXCHANGE, got: " ++ state.String (toInt8 4)))) ∧
      containsText ("iperf: expected PARAM_EXCHANGE, got: " ++ state.String (toInt8 4))
        (state.String (toInt8 4)) ∧
      (newIperfClient.run (stackWith (epReading [oneByte 4])) [10, 0, 0, 2] (Except.ok (bytesOf "{}"))).client.trace = traceCookie [10, 0, 0, 2] ++ [Event.logControl (toInt8 4)]) ∧
    ((newIperfClient.run (stackWith (epReading [oneByte 17])) [10, 0, 0, 2] (Except.ok (bytesOf "{}"))).val? =
        some (some (GoError.other
          ("iperf: unknown control message: " ++ toString (toInt8 17)))) ∧
      (newIperfClient.run (stackWith (epReading [oneByte 17])) [10, 0, 0, 2] (Except.ok (bytesOf "{}"))).client.trace = traceCookie [10, 0, 0, 2]) ∧
    ((newIperfClient.run (stackWith (epReading [oneByte 9, oneByte 4])) [10, 0, 0, 2] (Except.ok (bytesOf "{}"))).val? =
        some (some (GoError.other
          ("iperf: expected CREATE_STREAMS, got: " ++ state.String (toInt8 4)))) ∧
      containsText ("iperf: expected CREATE_STREAMS, got: " ++ state.String (toInt8 4))
        (state.String (toInt8 4)) ∧
      (newIperfClient.run (stackWith (epReading [oneByte 9, oneByte 4])) [10, 0, 0, 2] (Except.ok (bytesOf "{}"))).client.trace =
        traceParams [10, 0, 0, 2] (bytesOf "{}") ++ [Event.logControl (toInt8 4)]) ∧
    ((newIperfClient.run (stackWith (epReading [oneByte 9, oneByte 10, oneByte 4])) [10, 0, 0, 2] (Except.ok (bytesOf "{}"))).val? =
        some (some (GoError.other
          ("iperf: expected TEST_START, got: " ++ state.String (toInt8 4)))) ∧
      containsText ("iperf: expected TEST_START, got: " ++ state.String (toInt8 4))
        (state.String (toInt8 4)) ∧
      (newIperfClient.run (stackWith (epReading [oneByte 9, oneByte 10, oneByte 4])) [10, 0, 0, 2] (Except.ok (bytesOf "{}"))).client.trace =
        traceStream [10, 0, 0, 2] (bytesOf "{}") ++ [Event.logControl (toInt8 4)]) ∧
    (∃ pre, (newIperfClient.run (stackWith (epReading [oneByte 9, oneByte 10, oneByte 1, oneByte 4])) [10, 0, 0, 2] (Except.ok (bytesOf "{}"))).val? =
        some (some (GoError.other (pre ++ state.String TEST_END)))) ∧
    ((newIperfClient.run (stackWith (epReading [oneByte 9, oneByte 10, oneByte 1, oneByte 4])) [10, 0, 0, 2] (Except.ok (bytesOf "{}"))).val? =
        some (some (GoError.other
          ("iperf: got control message: " ++ state.String (toInt8 4)))) ∧
      (newIperfClient.run (stackWith (epReading [oneByte 9, oneByte 10, oneByte 1, oneByte 4])) [10, 0, 0, 2] (Except.ok (bytesOf "{}"))).client.trace =
        traceStream [10, 0, 0, 2] (bytesOf "{}") ++
          [Event.logControl TEST_START, Event.goReader, Event.logControl (toInt8 4),
           Event.chanRecv (toInt8 4)]) ∧
    ((newIperfClient.run (stackOf (epReading [oneByte 9, oneByte 10, oneByte 1, oneByte 2]) epStreamClosing) [10, 0, 0, 2] (Except.ok (bytesOf "{}"))).val? =
        some (some (GoError.other
          ("iperf: got control message: " ++ state.String CLIENT_TERMINATE))) ∧
      (newIperfClient.run (stackOf (epReading [oneByte 9, oneByte 10, oneByte 1, oneByte 2]) epStreamClosing) [10, 0, 0, 2] (Except.ok (bytesOf "{}"))).client.trace =
        traceStream [10, 0, 0, 2] (bytesOf "{}") ++
          [Event.logControl TEST_START, Event.goReader, Event.logControl TEST_RUNNING,
           Event.chanRecv TEST_RUNNING, Event.goSend 0, Event.goReport,
           Event.chanRecv CLIENT_TERMINATE]) :=
  ⟨(run_handshake (stackWith (epReading [oneByte 9, oneByte 10, oneByte 1, oneByte 2])) [10, 0, 0, 2] (Except.ok (bytesOf "{}"))).1 (by decide),
   ((run_handshake (stackWith (epReading [oneByte 4])) [10, 0, 0, 2] (Except.ok (bytesOf "{}"))).2.1
      (epReading [oneByte 4]) [{ n := 4, err := none }, { n := 2, err := none }] 4 []
      ⟨rfl, rfl, 37, rfl⟩ rfl (by decide)).1 (by decide),
   ((run_handshake (stackWith (epReading [oneByte 17])) [10, 0, 0, 2] (Except.ok (bytesOf "{}"))).2.1
      (epReading [oneByte 17]) [{ n := 4, err := none }, { n := 2, err := none }] 17 []
      ⟨rfl, rfl, 37, rfl⟩ rfl (by decide)).2 (by decide),
   ((run_handshake (stackWith (epReading [oneByte 9, oneByte 4])) [10, 0, 0, 2] (Except.ok (bytesOf "{}"))).2.2.1
      (epReading [oneByte 9, oneByte 4]) [{ n := 4, err := none }, { n := 2, err := none }] [] (bytesOf "{}") 4 [oneByte 4] []
      ⟨rfl, rfl, 37, rfl⟩ rfl ⟨rfl, 4, 2, rfl⟩ rfl (by decide)).1 (by decide),
   ((run_handshake (stackWith (epReading [oneByte 9, oneByte 10, oneByte 4])) [10, 0, 0, 2] (Except.ok (bytesOf "{}"))).2.2.2.1
      (epReading [oneByte 9, oneByte 10, oneByte 4]) epStream [{ n := 4, err := none }, { n := 2, err := none }] [] [] (bytesOf "{}") 4
      [oneByte 10, oneByte 4] [oneByte 4] []
      ⟨rfl, rfl, 37, rfl⟩ rfl ⟨rfl, 4, 2, rfl⟩ rfl ⟨rfl, rfl, 37, rfl⟩ rfl
      (by decide)).1 (by decide),
   (run_handshake (stackWith (epReading [oneByte 9, oneByte 10, oneByte 1, oneByte 4])) [10, 0, 0, 2] (Except.ok (bytesOf "{}"))).2.2.2.2.1
      TEST_END (by decide) (by decide),
   (run_handshake (stackWith (epReading [oneByte 9, oneByte 10, oneByte 1, oneByte 4])) [10, 0, 0, 2] (Except.ok (bytesOf "{}"))).2.2.2.2.2.1
      (bytesOf "{}") [] [oneByte 4] [] 4
      ⟨epReading [oneByte 9, oneByte 10, oneByte 1, oneByte 4], [{ n := 4, err := none }, { n := 2, err := none }], [], epStream,
        [oneByte 10, oneByte 1, oneByte 4], [oneByte 1, oneByte 4],
        ⟨rfl, rfl, 37, rfl⟩, rfl, ⟨rfl, 4, 2, rfl⟩, rfl, ⟨rfl, rfl, 37, rfl⟩, rfl⟩
      rfl (by decide) (by decide),
   (run_handshake (stackOf (epReading [oneByte 9, oneByte 10, oneByte 1, oneByte 2]) epStreamClosing) [10, 0, 0, 2] (Except.ok (bytesOf "{}"))).2.2.2.2.2.2
      (bytesOf "{}") [{ n := 2048, err := none }]
      { n := 0, err := some GoError.ErrClosedForSend } [] [oneByte 2] []
      ⟨epReading [oneByte 9, oneByte 10, oneByte 1, oneByte 2], [{ n := 4, err := none }, { n := 2, err := none }], [], epStreamClosing,
        [oneByte 10, oneByte 1, oneByte 2], [oneByte 1, oneByte 2],
        ⟨rfl, rfl, 37, rfl⟩, rfl, ⟨rfl, 4, 2, rfl⟩, rfl, ⟨rfl, rfl, 37, rfl⟩, rfl⟩
      rfl (by decide) (by decide)⟩

/-- C2 (counterexample): the first control message is the byte 17; `run`
returns the decoder's error `iperf: unknown control message: 17`, whose text
does not contain `state(unknown:17)`, the `String()` name of the state 17. -/
theorem run_first_message_17 :
    (newIperfClient.run (stackWith (epReading [oneByte 17])) [10, 0, 0, 2]
      (Except.ok (bytesOf "{}"))).val? =
      some (some (GoError.other "iperf: unknown control message: 17")) ∧
    toInt8 17 ≠ PARAM_EXCHANGE ∧
    state.String (toInt8 17) = "state(unknown:17)" ∧
    ¬ containsText "iperf: unknown control message: 17" (state.String (toInt8 17)) := by
  refine ⟨by decide, by decide, by decide, by decide⟩

end Iperfnetstack
